import Mathlib

/-!
ChronoSense Arduino library: checksum, CSV encoding, validation and sending.

A shallow embedding of `src/arduino/chronoSenseArduino.cpp` and
`src/arduino/chronoSenseArduino.h`.

Modelling conventions.

* A C `float` is a value of `CFloat`: NaN, an infinity, negative zero, or a
  finite rational.  Every IEEE binary32 value is one of these; comparison and
  conversion to `int` are exact operations, so no rounding is modelled.  The
  decimal literals of the spec are written as the binary32 values the compiler
  produces for them (`12.7f` is `13316915 / 2^20`).
* `int` is 32 bits wide, two's complement; arithmetic results are wrapped with
  `wrapInt`.  Where C leaves the result of a `float` to `int` conversion
  undefined (NaN, infinities, out of range) the value is taken from the
  platform record, so every theorem holds for whatever the hardware yields.
* `float values[]` with `int count` is a list together with a count; reading
  `values[i]` past the end of the list yields `none` for the whole call.
* The Arduino core `String(float, 1)` constructor is not part of the
  repository: it is a field of the platform record, and `oneDecimal` is the
  core's computation of it in exact arithmetic.
* A call through a member pointer that is `nullptr` is undefined: the
  operation yields `none`.
* Callbacks are function pointers; the instance stores whether one is
  registered and a call appends an event to the trace of the operation.
-/

/-! ## C floats and ints -/

/-- A C `float`: NaN, plus or minus infinity, negative zero, or a finite value. -/
inductive CFloat where
  | nan : CFloat
  | inf (negative : Bool) : CFloat
  | negZero : CFloat
  | fin (q : ℚ) : CFloat
deriving DecidableEq

/-- Upper end of the range of `int`. -/
def INT_MAX : Int := 2147483647

/-- Lower end of the range of `int`. -/
def INT_MIN : Int := -2147483648

/-- Two's complement wrap of a mathematical integer into the range of `int`. -/
def wrapInt (x : Int) : Int := (x + 2147483648) % 4294967296 - 2147483648

/-- Truncation of a rational toward zero. -/
def truncQ (q : ℚ) : Int := Int.tdiv q.num q.den

/-- Build configuration and the parts of the Arduino core the library calls. -/
structure Platform where
  /-- Whether `ESP32` is defined. -/
  esp32 : Bool
  /-- Whether `CS_DEBUG` is defined. -/
  csDebug : Bool
  /-- What `(int)v` yields where C leaves the conversion undefined. -/
  floatToIntUndefined : CFloat → Int
  /-- The text of `String(v, 1)`. -/
  floatString1 : CFloat → String

namespace CFloat

/-- The C macro `isnan`. -/
def isnan : CFloat → Bool
  | nan => true
  | _ => false

/-- The C macro `isinf`. -/
def isinf : CFloat → Bool
  | inf _ => true
  | _ => false

/-- Conversion of an `int` constant to `float` (exact for the constants used). -/
def ofInt (n : Int) : CFloat := fin n

/-- The comparison `a <= b` on floats: false when either side is NaN. -/
def le : CFloat → CFloat → Bool
  | nan, _ => false
  | _, nan => false
  | inf true, _ => true
  | _, inf false => true
  | inf false, _ => false
  | _, inf true => false
  | negZero, negZero => true
  | negZero, fin b => decide (0 ≤ b)
  | fin a, negZero => decide (a ≤ 0)
  | fin a, fin b => decide (a ≤ b)

/-- The comparison `a >= b` on floats. -/
def ge (a b : CFloat) : Bool := le b a

/-- The cast `(int)v`: truncation toward zero when the truncated value is
representable, otherwise whatever the platform yields. -/
def toInt (p : Platform) : CFloat → Int
  | fin q =>
    if INT_MIN ≤ truncQ q ∧ truncQ q ≤ INT_MAX then truncQ q
    else wrapInt (p.floatToIntUndefined (fin q))
  | negZero => 0
  | v => wrapInt (p.floatToIntUndefined v)

/-- The float is finite and its truncation is an `int` whose negation is an
`int` too. -/
def TruncatesToInt : CFloat → Prop
  | fin q => INT_MIN < truncQ q ∧ truncQ q ≤ INT_MAX
  | negZero => True
  | _ => False

/-- Mathematical truncation toward zero of a float (`0` for NaN and infinities). -/
def trunc : CFloat → Int
  | fin q => truncQ q
  | _ => 0

/-- Rounding of a rational to the nearest integer, ties away from zero. -/
def roundQ (q : ℚ) : Int := Int.tdiv (2 * q.num + Int.sign q.num * q.den) (2 * q.den)

/-- Rounding of a float to the nearest integer (`0` for NaN and infinities). -/
def round : CFloat → Int
  | fin q => roundQ q
  | _ => 0

end CFloat

/-- The Arduino macro `abs(x)`, `((x)>0?(x):-(x))`, on `int`. -/
def intAbs (x : Int) : Int := wrapInt (if x > 0 then x else -x)

/-- The binary32 value of the literal `12.7`. -/
def f12_7 : CFloat := .fin (mkRat 13316915 1048576)

/-- The binary32 value of the literal `-3.2`. -/
def fNeg3_2 : CFloat := .fin (mkRat (-13421773) 4194304)

/-- The binary32 value of the literal `100.0`. -/
def f100 : CFloat := .fin 100

/-! ## Checksum -/

namespace ChronoSense

/-- The loop of `calculateModSum(float[], int)`: `n` iterations are left, the
index is `i` and the running total is `sum`. -/
def calculateModSumLoop (p : Platform) (values : List CFloat) : Nat → Nat → Int → Option Int
  | 0, _, sum => some sum
  | n + 1, i, sum =>
    match values[i]? with
    | none => none
    | some v =>
      calculateModSumLoop p values n (i + 1)
        (wrapInt (sum + (intAbs (v.toInt p)).tmod 10))

/-- The method `ChronoSense::calculateModSum(float values[], int count)`. -/
def calculateModSum (p : Platform) (values : List CFloat) (count : Int) : Option Int :=
  (calculateModSumLoop p values count.toNat 0 0).map (fun sum => sum.tmod 10)

end ChronoSense

namespace ChronoSenseUtils

/-- The loop of `calculateChecksum(float[], int)`. -/
def calculateChecksumLoop (p : Platform) (values : List CFloat) : Nat → Nat → Int → Option Int
  | 0, _, sum => some sum
  | n + 1, i, sum =>
    match values[i]? with
    | none => none
    | some v =>
      calculateChecksumLoop p values n (i + 1)
        (wrapInt (sum + (intAbs (v.toInt p)).tmod 10))

/-- The function `ChronoSenseUtils::calculateChecksum(float values[], int count)`. -/
def calculateChecksum (p : Platform) (values : List CFloat) (count : Int) : Option Int :=
  (calculateChecksumLoop p values count.toNat 0 0).map (fun sum => sum.tmod 10)

end ChronoSenseUtils

/-! ## The instance, its effects and the operations -/

/-- The enumeration `ChronoSenseMode` (transmission modes). -/
inductive ChronoSenseMode where
  | CS_USB_SERIAL
  | CS_WIFI_WEBSOCKET
  | CS_WIFI_TCP
  | CS_BLUETOOTH
  | CS_RADIO_NRF24
deriving DecidableEq, Repr

/-- The enumeration `ValidationLevel` (data validation levels). -/
inductive ValidationLevel where
  | VALIDATE_NONE
  | VALIDATE_BASIC
  | VALIDATE_CHECKSUM
  | VALIDATE_FULL
deriving DecidableEq, Repr

/-- The integer value of an enumerator of `ValidationLevel`. -/
def ValidationLevel.toNat : ValidationLevel → Nat
  | VALIDATE_NONE => 0
  | VALIDATE_BASIC => 1
  | VALIDATE_CHECKSUM => 2
  | VALIDATE_FULL => 3

/-- A JSON document handed to `webSocket->sendTXT`, by its fields. -/
inductive Envelope where
  | sensorData (device : String) (channel : Int) (data : String) (timestamp : Nat)
  | deviceInfo (device : String) (channel : Int) (version : String)
deriving DecidableEq

/-- What an operation does besides changing the instance: the calls it makes
to its helpers, to the transports and to the registered callbacks, in order. -/
inductive Event where
  /-- A call of `validateSensorData`. -/
  | validateSensorData
  /-- A call of `formatCSVData`. -/
  | formatCSVData
  /-- A call of `transmitString(data)`. -/
  | transmitString (data : String)
  /-- The call `Serial.println(data)` of the USB serial transport. -/
  | serialPrintln (data : String)
  /-- The call `webSocket->sendTXT(message)`. -/
  | webSocketSendTXT (message : Envelope)
  /-- The call `bluetooth->println(data)`. -/
  | bluetoothPrintln (data : String)
  /-- A `CS_DEBUG_PRINTLN(text)` in a build with `CS_DEBUG`. -/
  | debugPrintln (text : String)
  | onConnect
  | onDisconnect
  | onDataSent (data : String)
  | onError (error : String)
  /-- A `CS_DEBUG_PRINT(text)` in a build with `CS_DEBUG`. -/
  | debugPrint (text : String)
  /-- The call `Serial.begin(baud)`. -/
  | serialBegin (baud : Nat)
  /-- The call `WiFi.begin(ssid, password)`. -/
  | wifiBegin (ssid password : String)
  /-- The call `WiFi.setHostname(name)`. -/
  | wifiSetHostname (name : String)
  /-- The call `delay(ms)`. -/
  | delay (ms : Nat)
  /-- The call `bluetooth->begin(name)`. -/
  | bluetoothBegin (name : String)
  /-- The call `webSocket->begin(host, port, url)`. -/
  | webSocketBegin (host : String) (port : Int) (url : String)
  /-- The call `webSocket->onEvent(webSocketEventWrapper)`. -/
  | webSocketOnEvent
  /-- The call `webSocket->setReconnectInterval(ms)`. -/
  | webSocketSetReconnectInterval (ms : Nat)
  /-- The call `webSocket->loop()`. -/
  | webSocketLoop
deriving DecidableEq

/-- The data members of class `ChronoSense`.  A pointer member is `true` when
it is not `nullptr`. -/
structure ChronoSense where
  mode : ChronoSenseMode
  deviceName : String
  radioChannel : Int
  checksumEnabled : Bool
  validation : ValidationLevel
  transmissionInterval : Int
  wifiSSID : String
  wifiPassword : String
  serverHost : String
  serverPort : Int
  webSocket : Bool
  bluetooth : Bool
  connected : Bool
  lastTransmission : Nat
  connectionTimeout : Nat
  dataBuffer : List String
  bufferIndex : Int
  bufferEnabled : Bool
  onConnectCallback : Bool
  onDisconnectCallback : Bool
  onDataSentCallback : Bool
  onErrorCallback : Bool
deriving DecidableEq

/-- What a call of a member function yields: the returned value, the instance
afterwards and the events of the call. -/
structure Outcome (α : Type) where
  value : α
  state : ChronoSense
  trace : List Event
deriving DecidableEq

namespace ChronoSense

/-- The constructor `ChronoSense::ChronoSense(ChronoSenseMode mode)`. -/
def new (mode : ChronoSenseMode) : ChronoSense where
  mode := mode
  deviceName := "Arduino-Sensor"
  radioChannel := 144
  checksumEnabled := true
  validation := .VALIDATE_CHECKSUM
  transmissionInterval := 5000
  wifiSSID := ""
  wifiPassword := ""
  serverHost := ""
  serverPort := 8080
  webSocket := false
  bluetooth := false
  connected := false
  lastTransmission := 0
  connectionTimeout := 30000
  dataBuffer := List.replicate 10 ""
  bufferIndex := 0
  bufferEnabled := false
  onConnectCallback := false
  onDisconnectCallback := false
  onDataSentCallback := false
  onErrorCallback := false

/-- The loop of `formatCSVData`: `n` iterations are left, the index is `i` and
`csv` is the text so far. -/
def formatCSVDataLoop (p : Platform) (values : List CFloat) : Nat → Nat → String → Option String
  | 0, _, csv => some csv
  | n + 1, i, csv =>
    match values[i]? with
    | none => none
    | some v =>
      formatCSVDataLoop p values n (i + 1)
        ((if i > 0 then csv ++ "," else csv) ++ p.floatString1 v)

/-- The method `ChronoSense::formatCSVData`.  `String(checksum)` is the decimal
text of the `int`. -/
def formatCSVData (p : Platform) (cs : ChronoSense) (_sensorType : String)
    (values : List CFloat) (count : Int) : Option String :=
  match formatCSVDataLoop p values count.toNat 0 "" with
  | none => none
  | some csv =>
    if cs.checksumEnabled then
      match calculateModSum p values count with
      | none => none
      | some checksum => some (csv ++ ("," ++ toString checksum))
    else some csv

/-- The first loop of `validateSensorData`: `some false` when it returns
`false`, `some true` when it runs to its end. -/
def validateSensorDataLoop (values : List CFloat) : Nat → Nat → Option Bool
  | 0, _ => some true
  | n + 1, i =>
    match values[i]? with
    | none => none
    | some v => if v.isnan || v.isinf then some false else validateSensorDataLoop values n (i + 1)

/-- The test `lo <= values[i] <= hi` written `values[i] >= lo && values[i] <= hi`. -/
def inRange (values : List CFloat) (i : Nat) (lo hi : Int) : Option Bool :=
  match values[i]? with
  | none => none
  | some v => some (v.ge (CFloat.ofInt lo) && v.le (CFloat.ofInt hi))

/-- The method `ChronoSense::validateSensorData`; `&&` evaluates its right
operand only when the left one is true. -/
def validateSensorData (values : List CFloat) (count : Int) (sensorType : String) :
    Option Bool :=
  match validateSensorDataLoop values count.toNat 0 with
  | none => none
  | some false => some false
  | some true =>
    if sensorType == "CO2" && decide (count ≥ 3) then
      match inRange values 0 0 50000 with
      | none => none
      | some false => some false
      | some true =>
        match inRange values 1 (-40) 85 with
        | none => none
        | some false => some false
        | some true => inRange values 2 0 100
    else if sensorType == "Temperature" then
      inRange values 0 (-40) 125
    else if sensorType == "Distance" then
      inRange values 0 0 400
    else some true

/-- The method `ChronoSense::transmitString`: the calls it makes.  `millis` is
what `millis()` returns for the envelope of the WebSocket transport. -/
def transmitString (p : Platform) (cs : ChronoSense) (millis : Nat) (data : String) :
    List Event :=
  match cs.mode with
  | .CS_USB_SERIAL => [.serialPrintln data]
  | .CS_WIFI_WEBSOCKET =>
    if p.esp32 then
      if cs.webSocket && cs.connected then
        [.webSocketSendTXT (.sensorData cs.deviceName cs.radioChannel data millis)]
          ++ (if p.csDebug then [.debugPrintln ("WebSocket -> " ++ data)] else [])
      else []
    else []
  | .CS_BLUETOOTH =>
    if p.esp32 then
      if cs.bluetooth then
        [.bluetoothPrintln data]
          ++ (if p.csDebug then [.debugPrintln ("Bluetooth -> " ++ data)] else [])
      else []
    else []
  | .CS_WIFI_TCP => []
  | .CS_RADIO_NRF24 => []

/-- The part of `sendSensorData` after validation: format, transmit, record the
time, call the callback, return `true`.  `pre` holds the events so far. -/
def sendSensorDataSend (p : Platform) (cs : ChronoSense) (millisEnvelope millisSend : Nat)
    (sensorType : String) (values : List CFloat) (count : Int) (pre : List Event) :
    Option (Outcome Bool) :=
  match formatCSVData p cs sensorType values count with
  | none => none
  | some csvData =>
    some {
      value := true
      state := { cs with lastTransmission := millisSend }
      trace := pre ++ [.formatCSVData, .transmitString csvData]
        ++ transmitString p cs millisEnvelope csvData
        ++ (if cs.onDataSentCallback then [.onDataSent csvData] else []) }

/-- The method `ChronoSense::sendSensorData(String, float[], int)`.
`millisEnvelope` is what `millis()` returns inside `transmitString` and
`millisSend` what it returns for `lastTransmission`. -/
def sendSensorData (p : Platform) (cs : ChronoSense) (millisEnvelope millisSend : Nat)
    (sensorType : String) (values : List CFloat) (count : Int) : Option (Outcome Bool) :=
  if !cs.connected || decide (count ≤ 0) || decide (count > 10) then
    some { value := false, state := cs, trace := [] }
  else if cs.validation.toNat ≥ ValidationLevel.VALIDATE_BASIC.toNat then
    match validateSensorData values count sensorType with
    | none => none
    | some false =>
      some {
        value := false
        state := cs
        trace := [.validateSensorData]
          ++ (if p.csDebug then [.debugPrintln ("Data validation failed for " ++ sensorType)]
              else []) }
    | some true =>
      sendSensorDataSend p cs millisEnvelope millisSend sensorType values count
        [.validateSensorData]
  else
    sendSensorDataSend p cs millisEnvelope millisSend sensorType values count []

end ChronoSense

/-! ## A reference platform for concrete inputs -/

/-- The text of the Arduino core constructor `String(v, 1)`, which is
`dtostrf` with one decimal place, as the core computes it: the sign, then the
magnitude plus one twentieth (half a unit of the last digit printed) cut
after the first fractional digit; `nan` and `inf` for the non-finite values.
The arithmetic is exact here. -/
def oneDecimal : CFloat → String
  | .nan => "nan"
  | .inf false => "inf"
  | .inf true => "-inf"
  | .negZero => "-0.0"
  | .fin q =>
    let tenths : Nat := (20 * q.num.natAbs + q.den) / (2 * q.den)
    (if q.num < 0 then "-" else "") ++ toString (tenths / 10) ++ "." ++ toString (tenths % 10)

/-- An ESP32 build without `CS_DEBUG` whose undefined conversions yield `0`
and whose `String(v, 1)` is `oneDecimal`. -/
def referencePlatform : Platform where
  esp32 := true
  csDebug := false
  floatToIntUndefined := fun _ => 0
  floatString1 := oneDecimal

/-- A connected instance in USB serial mode with the constructor's settings. -/
def connectedSerial : ChronoSense :=
  { ChronoSense.new .CS_USB_SERIAL with connected := true }

/-- The checksum formula of the specification with a given conversion to
integers: the sum of `|conv v| mod 10` over the values, modulo 10. -/
def checksumFormula (conv : CFloat → Int) (values : List CFloat) : Int :=
  (values.map (fun v => |conv v| % 10)).sum % 10

/-- The digits summed by the checksum loops, with mathematical truncation. -/
def truncDigits (values : List CFloat) : List Int :=
  values.map (fun v => |v.trunc| % 10)

instance (v : CFloat) : Decidable v.TruncatesToInt := by
  cases v <;> unfold CFloat.TruncatesToInt <;> infer_instance

/-- The float is neither NaN nor an infinity. -/
def CFloat.isFinite (v : CFloat) : Bool := !(v.isnan || v.isinf)

/-- The rational value of a finite float (`0` for NaN and infinities). -/
def CFloat.value : CFloat → ℚ
  | .fin q => q
  | _ => 0

/-- The texts handed to `transmitString` in a trace, in order. -/
def payloads : List Event → List String
  | [] => []
  | .transmitString data :: es => data :: payloads es
  | _ :: es => payloads es

/-- The binary32 value of the literal `-40.01`. -/
def fNeg40_01 : CFloat := .fin (mkRat (-10488381) 262144)

/-- The binary32 value of the literal `125.01`. -/
def f125_01 : CFloat := .fin (mkRat 16385311 131072)

/-- A connected USB serial instance with validation level Checksum (the
constructor's) and the checksum flag cleared. -/
def connectedSerialNoChecksum : ChronoSense :=
  { connectedSerial with checksumEnabled := false }

/-- A connected USB serial instance with validation level None. -/
def connectedSerialNoValidation : ChronoSense :=
  { connectedSerial with validation := .VALIDATE_NONE }

/-- A connected USB serial instance with validation level Full and the
checksum flag cleared. -/
def connectedSerialFullNoChecksum : ChronoSense :=
  { connectedSerialNoChecksum with validation := .VALIDATE_FULL }

/-- What sending the single value `12.7f` as "Temperature" over the connected
USB serial instance yields when `millis()` returns `7`. -/
def sentTemperature : Outcome Bool where
  value := true
  state := { connectedSerial with lastTransmission := 7 }
  trace := [.validateSensorData, .formatCSVData, .transmitString "12.7,2",
    .serialPrintln "12.7,2"]

/-! ## Raw sending, adapter events, connecting and the status query -/

/-- The integer value of an enumerator of `ChronoSenseMode`. -/
def ChronoSenseMode.toNat : ChronoSenseMode → Nat
  | CS_USB_SERIAL => 0
  | CS_WIFI_WEBSOCKET => 1
  | CS_WIFI_TCP => 2
  | CS_BLUETOOTH => 3
  | CS_RADIO_NRF24 => 4

/-- The event kinds `WStype_t` of the WebSockets client library. -/
inductive WStype_t where
  | WStype_ERROR
  | WStype_DISCONNECTED
  | WStype_CONNECTED
  | WStype_TEXT
  | WStype_BIN
  | WStype_FRAGMENT_TEXT_START
  | WStype_FRAGMENT_BIN_START
  | WStype_FRAGMENT
  | WStype_FRAGMENT_FIN
  | WStype_PING
  | WStype_PONG
deriving DecidableEq, Repr

/-- What the hardware and the libraries answer during `begin`. -/
structure Hardware where
  /-- Whether the `k`-th reading of `WiFi.status()` in the call is `WL_CONNECTED`. -/
  wifiStatus : Nat → Bool
  /-- The text of `WiFi.localIP().toString()`. -/
  localIP : String
  /-- What `bluetooth->begin(deviceName)` returns. -/
  bluetoothBegin : Bool
  /-- What `millis()` returns for `startTime` in `connectWebSocket`. -/
  startTime : Nat
  /-- For each evaluation of `millis()` in the waiting loop of
  `connectWebSocket`: the value read, and the events `webSocket->loop()` then
  hands to the event handler, each with its payload. -/
  polls : List (Nat × List (WStype_t × String))

/-- What the links answer to the status query `isConnected`. -/
structure LinkStatus where
  /-- The value of `Serial` as a `bool`. -/
  serial : Bool
  /-- Whether `WiFi.status() == WL_CONNECTED`. -/
  wifiConnected : Bool
  /-- What `bluetooth->connected()` returns. -/
  bluetoothConnected : Bool

/-- The events of `CS_DEBUG_PRINTLN(text)`. -/
def debugLine (p : Platform) (text : String) : List Event :=
  if p.csDebug then [.debugPrintln text] else []

/-- The difference `now - start` of two `unsigned long` values. -/
def elapsed (now start : Nat) : Nat :=
  (now % 4294967296 + 4294967296 - start % 4294967296) % 4294967296

/-- The macro `CHRONOSENSE_ARDUINO_VERSION`. -/
def CHRONOSENSE_ARDUINO_VERSION : String := "1.0.0"

/-- Whether an event is a call of a registered callback. -/
def Event.isCallback : Event → Bool
  | .onConnect => true
  | .onDisconnect => true
  | .onDataSent _ => true
  | .onError _ => true
  | _ => false

/-- Whether an event hands data to `transmitString` or to a transport. -/
def Event.isTransmission : Event → Bool
  | .transmitString _ => true
  | .serialPrintln _ => true
  | .webSocketSendTXT _ => true
  | .bluetoothPrintln _ => true
  | _ => false

/-- The callback calls of a trace, in order. -/
def callbacks (trace : List Event) : List Event := trace.filter Event.isCallback

namespace ChronoSense

/-- The method `ChronoSense::getVersion`. -/
def getVersion : String := CHRONOSENSE_ARDUINO_VERSION

/-- The method `ChronoSense::setWiFi`. -/
def setWiFi (cs : ChronoSense) (ssid password : String) : ChronoSense :=
  { cs with wifiSSID := ssid, wifiPassword := password }

/-- The method `ChronoSense::setServer`. -/
def setServer (cs : ChronoSense) (host : String) (port : Int) : ChronoSense :=
  { cs with serverHost := host, serverPort := port }

/-- The method `ChronoSense::sendRawCSV`.  `millisEnvelope` is what `millis()`
returns inside `transmitString` and `millisSend` what it returns for
`lastTransmission`. -/
def sendRawCSV (p : Platform) (cs : ChronoSense) (millisEnvelope millisSend : Nat)
    (csvData : String) : Outcome Bool :=
  if !cs.connected then { value := false, state := cs, trace := [] }
  else {
    value := true
    state := { cs with lastTransmission := millisSend }
    trace := [.transmitString csvData]
      ++ transmitString p cs millisEnvelope csvData
      ++ (if cs.onDataSentCallback then [.onDataSent csvData] else []) }

/-- The method `ChronoSense::handleWebSocketEvent` (compiled for `ESP32`
only); `payload` is the text of the event.  The Connected case calls
`webSocket->sendTXT(message)` with no test of the pointer: when `webSocket` is
`nullptr` the call is undefined and the result is `none`. -/
def handleWebSocketEvent (p : Platform) (cs : ChronoSense) (type : WStype_t)
    (payload : String) : Option (Outcome Unit) :=
  match type with
  | .WStype_DISCONNECTED =>
    some {
      value := ()
      state := { cs with connected := false }
      trace := debugLine p "WebSocket Disconnected"
        ++ (if cs.onDisconnectCallback then [.onDisconnect] else []) }
  | .WStype_CONNECTED =>
    if cs.webSocket then
      some {
        value := ()
        state := { cs with connected := true }
        trace := debugLine p "WebSocket Connected"
          ++ [.webSocketSendTXT (.deviceInfo cs.deviceName cs.radioChannel getVersion)]
          ++ (if cs.onConnectCallback then [.onConnect] else []) }
    else none
  | .WStype_TEXT =>
    some {
      value := ()
      state := cs
      trace := debugLine p ("Received: " ++ payload) }
  | .WStype_ERROR =>
    some {
      value := ()
      state := { cs with connected := false }
      trace := debugLine p "WebSocket Error"
        ++ (if cs.onErrorCallback then [.onError "WebSocket error"] else []) }
  | _ => some { value := (), state := cs, trace := [] }

/-- The events one call of `webSocket->loop()` hands to the handler, in
order; `none` when a call of the handler is undefined. -/
def dispatchEvents (p : Platform) : ChronoSense → List (WStype_t × String) →
    Option (ChronoSense × List Event)
  | cs, [] => some (cs, [])
  | cs, (type, payload) :: rest =>
    match handleWebSocketEvent p cs type payload with
    | none => none
    | some first =>
      match dispatchEvents p first.state rest with
      | none => none
      | some later => some (later.1, first.trace ++ later.2)

/-- The status query `ChronoSense::isConnected`. -/
def isConnected (p : Platform) (cs : ChronoSense) (links : LinkStatus) : Bool :=
  match cs.mode with
  | .CS_USB_SERIAL => links.serial
  | .CS_WIFI_WEBSOCKET => if p.esp32 then links.wifiConnected && cs.connected else cs.connected
  | .CS_WIFI_TCP => if p.esp32 then links.wifiConnected && cs.connected else cs.connected
  | .CS_BLUETOOTH => if p.esp32 then cs.bluetooth && links.bluetoothConnected else cs.connected
  | .CS_RADIO_NRF24 => cs.connected

/-- The waiting loop of `connectWebSocket`,
`while (!connected && (millis() - startTime) < connectionTimeout)`; `none`
when the readings of `polls` run out before the loop ends or a call of the
event handler is undefined. -/
def connectWebSocketWait (p : Platform) (startTime : Nat) :
    List (Nat × List (WStype_t × String)) → ChronoSense → Option (ChronoSense × List Event)
  | [], cs => if cs.connected then some (cs, []) else none
  | (now, events) :: rest, cs =>
    if cs.connected then some (cs, [])
    else if elapsed now startTime < cs.connectionTimeout then
      match dispatchEvents p cs events with
      | none => none
      | some handled =>
        match connectWebSocketWait p startTime rest handled.1 with
        | none => none
        | some (final, later) =>
          some (final, [.webSocketLoop] ++ handled.2 ++ [.delay 100] ++ later)
    else some (cs, [])

/-- The method `ChronoSense::connectWebSocket`. -/
def connectWebSocket (p : Platform) (hw : Hardware) (cs : ChronoSense) :
    Option (Outcome Bool) :=
  if p.esp32 then
    if cs.serverHost.length == 0 then
      some { value := false, state := cs, trace := debugLine p "Error: Server host not set" }
    else
      let cs1 := { cs with webSocket := true }
      let setup : List Event :=
        [.webSocketBegin cs.serverHost cs.serverPort "/", .webSocketOnEvent,
          .webSocketSetReconnectInterval 5000]
        ++ debugLine p ("WebSocket configured for: " ++ cs.serverHost ++ ":"
            ++ toString cs.serverPort)
      match connectWebSocketWait p hw.startTime hw.polls cs1 with
      | none => none
      | some (final, waited) =>
        some { value := final.connected, state := final, trace := setup ++ waited }
  else some { value := false, state := cs, trace := [] }

/-- The loop of `connectWiFi`,
`while (WiFi.status() != WL_CONNECTED && attempts < 20)`: `n` is `20 - attempts`
and `k` the number of readings of the status so far; returns the number of
readings after the loop and the events of the loop. -/
def connectWiFiLoop (p : Platform) (wifiStatus : Nat → Bool) : Nat → Nat → Nat × List Event
  | 0, k => (k + 1, [])
  | n + 1, k =>
    if wifiStatus k then (k + 1, [])
    else
      let later := connectWiFiLoop p wifiStatus n (k + 1)
      (later.1, [.delay 500] ++ (if p.csDebug then [.debugPrint "."] else []) ++ later.2)

/-- The method `ChronoSense::connectWiFi`. -/
def connectWiFi (p : Platform) (hw : Hardware) (cs : ChronoSense) : Option (Outcome Bool) :=
  if p.esp32 then
    let start : List Event :=
      debugLine p ("Connecting to WiFi: " ++ cs.wifiSSID)
      ++ [.wifiBegin cs.wifiSSID cs.wifiPassword, .wifiSetHostname cs.deviceName]
    let waited := connectWiFiLoop p hw.wifiStatus 20 0
    if hw.wifiStatus waited.1 then
      let up := start ++ waited.2 ++ debugLine p ("\nWiFi connected: " ++ hw.localIP)
      if cs.mode = .CS_WIFI_WEBSOCKET then
        match connectWebSocket p hw cs with
        | none => none
        | some out => some { out with trace := up ++ out.trace }
      else some { value := true, state := { cs with connected := true }, trace := up }
    else
      some {
        value := false
        state := { cs with connected := false }
        trace := start ++ waited.2 ++ debugLine p "\nWiFi connection failed"
          ++ (if cs.onErrorCallback then [.onError "WiFi connection failed"] else []) }
  else some { value := false, state := cs, trace := [] }

/-- The end of `begin` after the `switch`: the `onConnect` callback and the
returned flag. -/
def beginFinish (cs : ChronoSense) (pre : List Event) : Outcome Bool where
  value := cs.connected
  state := cs
  trace := pre ++ (if cs.connected && cs.onConnectCallback then [.onConnect] else [])

/-- The method `ChronoSense::begin(String deviceName)`. -/
def begin (p : Platform) (hw : Hardware) (cs : ChronoSense) (deviceName : String) :
    Option (Outcome Bool) :=
  let cs0 := { cs with deviceName := deviceName }
  let intro : List Event :=
    debugLine p ("ChronoSense: Initializing " ++ deviceName)
    ++ debugLine p ("Mode: " ++ toString cs0.mode.toNat)
    ++ debugLine p ("Channel: " ++ toString cs0.radioChannel)
  let wifi : Option (Outcome Bool) :=
    if p.esp32 then
      if cs0.wifiSSID.length == 0 then
        some {
          value := false
          state := cs0
          trace := intro ++ debugLine p "Error: WiFi credentials not set" }
      else
        match connectWiFi p hw cs0 with
        | none => none
        | some out => some { out with trace := intro ++ out.trace }
    else
      some {
        value := false
        state := cs0
        trace := intro ++ debugLine p "Error: WiFi not supported on this board" }
  match cs0.mode with
  | .CS_USB_SERIAL =>
    some (beginFinish { cs0 with connected := true }
      (intro ++ [.serialBegin 115200] ++ debugLine p "USB Serial initialized"))
  | .CS_WIFI_WEBSOCKET => wifi
  | .CS_WIFI_TCP => wifi
  | .CS_BLUETOOTH =>
    if p.esp32 then
      if !hw.bluetoothBegin then
        some {
          value := false
          state := { cs0 with bluetooth := true }
          trace := intro ++ [.bluetoothBegin deviceName]
            ++ debugLine p "Error: Bluetooth initialization failed" }
      else
        some (beginFinish { cs0 with bluetooth := true, connected := true }
          (intro ++ [.bluetoothBegin deviceName]
            ++ debugLine p ("Bluetooth initialized as: " ++ deviceName)))
    else
      some {
        value := false
        state := cs0
        trace := intro ++ debugLine p "Error: Bluetooth not supported on this board" }
  | .CS_RADIO_NRF24 =>
    some {
      value := false
      state := cs0
      trace := intro ++ debugLine p "Error: nRF24 not implemented yet" }

end ChronoSense

/-! ## Concrete hardware and instances -/

/-- Hardware whose WiFi link is associated at the first reading. -/
def wifiUp : Hardware where
  wifiStatus := fun _ => true
  localIP := "192.168.1.50"
  bluetoothBegin := true
  startTime := 0
  polls := []

/-- Hardware whose WiFi link never associates. -/
def wifiDown : Hardware where
  wifiStatus := fun _ => false
  localIP := ""
  bluetoothBegin := true
  startTime := 0
  polls := []

/-- An instance constructed in TCP-over-WiFi mode with WiFi credentials set. -/
def tcpConfigured : ChronoSense :=
  (ChronoSense.new .CS_WIFI_TCP).setWiFi "lab" "secret"

/-- The instance `tcpConfigured` with the connection flag set. -/
def tcpConnected : ChronoSense :=
  { tcpConfigured with connected := true }

/-- The instance `tcpConnected` with an `onDataSent` callback registered. -/
def tcpConnectedListening : ChronoSense :=
  { tcpConnected with onDataSentCallback := true }

/-- An instance constructed in WebSocket mode with WiFi credentials set, no
server host, and all four callbacks registered. -/
def webSocketNoHost : ChronoSense :=
  { (ChronoSense.new .CS_WIFI_WEBSOCKET).setWiFi "lab" "secret" with
    onConnectCallback := true
    onDisconnectCallback := true
    onDataSentCallback := true
    onErrorCallback := true }

/-- The instance `webSocketNoHost` with a server host set and its WebSocket
client created, as `connectWebSocket` leaves it. -/
def webSocketListening : ChronoSense :=
  { webSocketNoHost with serverHost := "192.168.1.10", webSocket := true }

/-- Links with the serial line present and nothing else connected. -/
def serialLineUp : LinkStatus where
  serial := true
  wifiConnected := false
  bluetoothConnected := false

/-- Links with the WiFi link associated. -/
def wifiLinkUp : LinkStatus where
  serial := true
  wifiConnected := true
  bluetoothConnected := false

/-! ## The integer checksum overloads and the exact running totals -/

namespace ChronoSense

/-- The loop of `calculateModSum(int[], int)`. -/
def calculateModSumIntLoop (values : List Int) : Nat → Nat → Int → Option Int
  | 0, _, sum => some sum
  | n + 1, i, sum =>
    match values[i]? with
    | none => none
    | some x => calculateModSumIntLoop values n (i + 1) (wrapInt (sum + (intAbs x).tmod 10))

/-- The method `ChronoSense::calculateModSum(int values[], int count)`. -/
def calculateModSumInt (values : List Int) (count : Int) : Option Int :=
  (calculateModSumIntLoop values count.toNat 0 0).map (fun sum => sum.tmod 10)

/-- The exact values of `sum + abs((int)values[i]) % 10` that the loop of
`calculateModSum(float[], int)` computes, one for each iteration, before they
are stored in the `int` variable `sum`. -/
def calculateModSumTotals (p : Platform) (values : List CFloat) : Nat → Nat → Int → List Int
  | 0, _, _ => []
  | n + 1, i, sum =>
    match values[i]? with
    | none => []
    | some v =>
      (sum + (intAbs (v.toInt p)).tmod 10)
        :: calculateModSumTotals p values n (i + 1)
            (wrapInt (sum + (intAbs (v.toInt p)).tmod 10))

/-- The exact values of `sum + abs(values[i]) % 10` that the loop of
`calculateModSum(int[], int)` computes, one for each iteration. -/
def calculateModSumIntTotals (values : List Int) : Nat → Nat → Int → List Int
  | 0, _, _ => []
  | n + 1, i, sum =>
    match values[i]? with
    | none => []
    | some x =>
      (sum + (intAbs x).tmod 10)
        :: calculateModSumIntTotals values n (i + 1) (wrapInt (sum + (intAbs x).tmod 10))

end ChronoSense

namespace ChronoSenseUtils

/-- The loop of `calculateChecksum(int[], int)`. -/
def calculateChecksumIntLoop (values : List Int) : Nat → Nat → Int → Option Int
  | 0, _, sum => some sum
  | n + 1, i, sum =>
    match values[i]? with
    | none => none
    | some x => calculateChecksumIntLoop values n (i + 1) (wrapInt (sum + (intAbs x).tmod 10))

/-- The function `ChronoSenseUtils::calculateChecksum(int values[], int count)`. -/
def calculateChecksumInt (values : List Int) (count : Int) : Option Int :=
  (calculateChecksumIntLoop values count.toNat 0 0).map (fun sum => sum.tmod 10)

/-- The exact values of `sum + abs((int)values[i]) % 10` in the loop of
`calculateChecksum(float[], int)`, one for each iteration. -/
def calculateChecksumTotals (p : Platform) (values : List CFloat) : Nat → Nat → Int → List Int
  | 0, _, _ => []
  | n + 1, i, sum =>
    match values[i]? with
    | none => []
    | some v =>
      (sum + (intAbs (v.toInt p)).tmod 10)
        :: calculateChecksumTotals p values n (i + 1)
            (wrapInt (sum + (intAbs (v.toInt p)).tmod 10))

/-- The exact values of `sum + abs(values[i]) % 10` in the loop of
`calculateChecksum(int[], int)`, one for each iteration. -/
def calculateChecksumIntTotals (values : List Int) : Nat → Nat → Int → List Int
  | 0, _, _ => []
  | n + 1, i, sum =>
    match values[i]? with
    | none => []
    | some x =>
      (sum + (intAbs x).tmod 10)
        :: calculateChecksumIntTotals values n (i + 1) (wrapInt (sum + (intAbs x).tmod 10))

end ChronoSenseUtils

/-- The digits summed by the integer checksum loops. -/
def intDigits (values : List Int) : List Int :=
  values.map (fun x => |x| % 10)

/-- The binary32 value of the literal `-2.55`, which is `-2.5499999523...`. -/
def fNeg2_55 : CFloat := .fin (mkRat (-10695475) 4194304)

/-! ## The single-value send, negated values and the timestamp -/

namespace ChronoSense

/-- The method `ChronoSense::sendSensorData(String sensorType, float value)`. -/
def sendSensorDataValue (p : Platform) (cs : ChronoSense) (millisEnvelope millisSend : Nat)
    (sensorType : String) (value : CFloat) : Option (Outcome Bool) :=
  sendSensorData p cs millisEnvelope millisSend sensorType [value] 1

end ChronoSense

/-- The negation `-v` of a float. -/
def CFloat.neg : CFloat → CFloat
  | .nan => .nan
  | .inf negative => .inf (!negative)
  | .negZero => .fin 0
  | .fin q => if q = 0 then .negZero else .fin (-q)

/-- The float is finite and its truncation is representable as an `int`. -/
def CFloat.InIntRange : CFloat → Prop
  | .fin q => INT_MIN ≤ truncQ q ∧ truncQ q ≤ INT_MAX
  | .negZero => True
  | _ => False

instance (v : CFloat) : Decidable v.InIntRange := by
  cases v <;> unfold CFloat.InIntRange <;> infer_instance

/-- The sequence with the values negated where the flag is set; values
beyond the flags stay as they are. -/
def negateWhere : List Bool → List CFloat → List CFloat
  | flag :: flags, v :: vs => (if flag then v.neg else v) :: negateWhere flags vs
  | _, vs => vs

/-- The `int` sequence with the values negated where the flag is set. -/
def negateIntsWhere : List Bool → List Int → List Int
  | flag :: flags, x :: xs => (if flag then -x else x) :: negateIntsWhere flags xs
  | _, xs => xs

/-- The text `sprintf` writes for an `unsigned long` under `%0<width>lu`: its
decimal digits, padded with zeros on the left to the width. -/
def zeroPad (width n : Nat) : String :=
  String.mk (List.replicate (width - (toString n).length) '0') ++ toString n

namespace ChronoSenseUtils

/-- The function `ChronoSenseUtils::formatTimestamp`; `millis` is what
`millis()` returns. -/
def formatTimestamp (millis : Nat) : String :=
  let ms := millis
  let seconds := ms / 1000
  let minutes := seconds / 60
  let hours := minutes / 60
  let ms := ms % 1000
  let seconds := seconds % 60
  let minutes := minutes % 60
  let hours := hours % 24
  zeroPad 2 hours ++ ":" ++ zeroPad 2 minutes ++ ":" ++ zeroPad 2 seconds ++ "."
    ++ zeroPad 3 ms

end ChronoSenseUtils

/-! ## Arithmetic lemmas -/

theorem wrapInt_of_inRange (x : Int) (h1 : INT_MIN ≤ x) (h2 : x ≤ INT_MAX) : wrapInt x = x := by
  unfold INT_MIN at h1
  unfold INT_MAX at h2
  unfold wrapInt
  omega

theorem intAbs_of_gt_min (x : Int) (h1 : INT_MIN < x) (h2 : x ≤ INT_MAX) : intAbs x = |x| := by
  unfold INT_MIN at h1
  unfold INT_MAX at h2
  unfold intAbs
  by_cases hx : x > 0
  · rw [if_pos hx, abs_of_pos hx]
    exact wrapInt_of_inRange x (by unfold INT_MIN; omega) (by unfold INT_MAX; omega)
  · rw [if_neg hx, abs_of_nonpos (by omega)]
    exact wrapInt_of_inRange (-x) (by unfold INT_MIN; omega) (by unfold INT_MAX; omega)

theorem toInt_of_truncatesToInt (p : Platform) (v : CFloat) (hv : v.TruncatesToInt) :
    v.toInt p = v.trunc ∧ INT_MIN < v.trunc ∧ v.trunc ≤ INT_MAX := by
  cases v with
  | nan => exact absurd hv (by simp [CFloat.TruncatesToInt])
  | inf b => exact absurd hv (by simp [CFloat.TruncatesToInt])
  | negZero => simp [CFloat.toInt, CFloat.trunc, INT_MIN, INT_MAX]
  | fin q =>
    obtain ⟨h1, h2⟩ := hv
    refine ⟨?_, h1, h2⟩
    simp only [CFloat.toInt, CFloat.trunc]
    rw [if_pos ⟨le_of_lt h1, h2⟩]

/-- The C remainder by ten lies between `-9` and `9`. -/
theorem tmod_ten_bounds (s : Int) : -9 ≤ s.tmod 10 ∧ s.tmod 10 ≤ 9 := by
  cases s with
  | ofNat m =>
    have h : (Int.ofNat m).tmod 10 = ((m % 10 : Nat) : Int) := rfl
    rw [h]
    omega
  | negSucc m =>
    have h : (Int.negSucc m).tmod 10 = -(((m + 1) % 10 : Nat) : Int) := rfl
    rw [h]
    omega

/-- One step of the checksum loops: the digit added for a float in range. -/
theorem digit_of_truncatesToInt (p : Platform) (v : CFloat) (hv : v.TruncatesToInt) :
    (intAbs (v.toInt p)).tmod 10 = |v.trunc| % 10 := by
  obtain ⟨h, h1, h2⟩ := toInt_of_truncatesToInt p v hv
  rw [h, intAbs_of_gt_min _ h1 h2]
  exact Int.tmod_eq_emod (abs_nonneg _) (by norm_num)

theorem truncDigits_sum_bounds (values : List CFloat) :
    0 ≤ (truncDigits values).sum ∧ (truncDigits values).sum ≤ 9 * (values.length : Int) := by
  induction values with
  | nil => simp [truncDigits]
  | cons v vs ih =>
    have h1 : 0 ≤ |v.trunc| % 10 := Int.emod_nonneg _ (by norm_num)
    have h2 : |v.trunc| % 10 < 10 := Int.emod_lt_of_pos _ (by norm_num)
    simp only [truncDigits, List.map_cons, List.sum_cons, List.length_cons] at ih ⊢
    push_cast
    omega

/-- The loop of `calculateModSum` on floats in range computes the running
total plus the digits of the next `n` values, without wrapping. -/
theorem calculateModSumLoop_eq (p : Platform) (values : List CFloat) :
    ∀ (n i : Nat) (sum : Int), i + n ≤ values.length →
      (∀ v ∈ (values.drop i).take n, v.TruncatesToInt) → 0 ≤ sum →
      sum + 9 * (n : Int) ≤ INT_MAX →
      ChronoSense.calculateModSumLoop p values n i sum
        = some (sum + (truncDigits ((values.drop i).take n)).sum) := by
  intro n
  induction n with
  | zero =>
    intro i sum _ _ _ _
    simp [ChronoSense.calculateModSumLoop, truncDigits]
  | succ n ih =>
    intro i sum hlen hv h0 hmax
    have hi : i < values.length := by omega
    rw [List.drop_eq_getElem_cons hi, List.take_succ_cons] at hv ⊢
    have hd := digit_of_truncatesToInt p values[i] (hv _ (List.mem_cons_self _ _))
    have h1 : 0 ≤ |values[i].trunc| % 10 := Int.emod_nonneg _ (by norm_num)
    have h2 : |values[i].trunc| % 10 < 10 := Int.emod_lt_of_pos _ (by norm_num)
    have hw : wrapInt (sum + |values[i].trunc| % 10) = sum + |values[i].trunc| % 10 := by
      apply wrapInt_of_inRange
      · unfold INT_MIN; omega
      · push_cast at hmax; omega
    rw [ChronoSense.calculateModSumLoop, List.getElem?_eq_getElem hi]
    simp only
    rw [hd, hw, ih (i + 1) _ (by omega) (fun v hm => hv v (List.mem_cons_of_mem _ hm))
      (by omega) (by push_cast at hmax; omega)]
    simp only [truncDigits, List.map_cons, List.sum_cons]
    congr 1
    ring

/-- The two float checksum loops are the same function. -/
theorem calculateChecksumLoop_eq_calculateModSumLoop (p : Platform) (values : List CFloat) :
    ∀ (n i : Nat) (sum : Int),
      ChronoSenseUtils.calculateChecksumLoop p values n i sum
        = ChronoSense.calculateModSumLoop p values n i sum := by
  intro n
  induction n with
  | zero => intro i sum; rfl
  | succ n ih =>
    intro i sum
    rw [ChronoSenseUtils.calculateChecksumLoop, ChronoSense.calculateModSumLoop]
    cases values[i]? with
    | none => rfl
    | some v => exact ih _ _

theorem calculateChecksum_eq_calculateModSum (p : Platform) (values : List CFloat) (count : Int) :
    ChronoSenseUtils.calculateChecksum p values count
      = ChronoSense.calculateModSum p values count := by
  unfold ChronoSenseUtils.calculateChecksum ChronoSense.calculateModSum
  rw [calculateChecksumLoop_eq_calculateModSumLoop]

/-- The checksum of floats in range, as a formula over the first `count` values. -/
theorem calculateModSum_eq_formula (p : Platform) (values : List CFloat) (count : Int)
    (h10 : count ≤ 10) (hlen : count.toNat ≤ values.length)
    (hv : ∀ v ∈ values.take count.toNat, v.TruncatesToInt) :
    ChronoSense.calculateModSum p values count
      = some (checksumFormula CFloat.trunc (values.take count.toNat)) := by
  unfold ChronoSense.calculateModSum
  rw [calculateModSumLoop_eq p values count.toNat 0 0 (by omega) (by simpa using hv) (le_refl _)
    (by unfold INT_MAX; omega)]
  simp only [Option.map_some', List.drop_zero, zero_add, checksumFormula]
  congr 1
  exact Int.tmod_eq_emod (truncDigits_sum_bounds _).1 (by norm_num)

/-! ## Text lemmas -/

theorem intercalate_go_data (l : List String) :
    ∀ acc : String, (String.intercalate.go acc "," l).data
      = acc.data ++ (l.map (fun a => ',' :: a.data)).flatten := by
  induction l with
  | nil => intro acc; simp [String.intercalate.go]
  | cons a as ih =>
    intro acc
    rw [String.intercalate.go, ih]
    simp [String.data_append, List.append_assoc]

/-- Splitting a comma-joined list of comma-free fields gives the fields back. -/
theorem splitOn_joined (fs : List (List Char)) :
    ∀ f : List Char, ',' ∉ f → (∀ g ∈ fs, ',' ∉ g) →
      (f ++ (fs.map (fun g => ',' :: g)).flatten).splitOn ',' = f :: fs := by
  induction fs with
  | nil =>
    intro f hf _
    simp only [List.map_nil, List.flatten_nil, List.append_nil]
    exact List.splitOnP_eq_single _ _ (fun x hx hp => hf (by rw [← eq_of_beq hp]; exact hx))
  | cons g gs ih =>
    intro f hf hfs
    simp only [List.map_cons, List.flatten_cons, List.cons_append]
    have := List.splitOnP_first (· == ',') f
      (fun x hx hp => hf (by rw [← eq_of_beq hp]; exact hx)) ',' (by simp)
      (g ++ (gs.map (fun g => ',' :: g)).flatten)
    unfold List.splitOn
    rw [this]
    congr 1
    exact ih g (hfs g (List.mem_cons_self _ _)) (fun h hh => hfs h (List.mem_cons_of_mem _ hh))

theorem joined_head (fs : List (List Char)) (f : List Char) (hf : ',' ∉ f) (hne : f ≠ []) :
    (f ++ (fs.map (fun g => ',' :: g)).flatten).head? ≠ some ',' := by
  cases f with
  | nil => exact absurd rfl hne
  | cons c cs =>
    simp only [List.cons_append, List.head?_cons, ne_eq, Option.some.injEq]
    intro h
    exact hf (by rw [h]; exact List.mem_cons_self _ _)

theorem joined_getLast (fs : List (List Char)) :
    ∀ f : List Char, ',' ∉ f → f ≠ [] → (∀ g ∈ fs, ',' ∉ g ∧ g ≠ []) →
    (f ++ (fs.map (fun g => ',' :: g)).flatten).getLast? ≠ some ',' := by
  induction fs with
  | nil =>
    intro f hf hne _ h
    simp only [List.map_nil, List.flatten_nil, List.append_nil] at h
    exact hf (List.mem_of_getLast?_eq_some h)
  | cons g gs ih =>
    intro f hf hne hfs h
    have hg := hfs g (List.mem_cons_self _ _)
    have hne2 : g ++ (gs.map (fun g => ',' :: g)).flatten ≠ [] := by
      simp [hg.2]
    have e : f ++ ((g :: gs).map (fun g => ',' :: g)).flatten
        = (f ++ [',']) ++ (g ++ (gs.map (fun g => ',' :: g)).flatten) := by
      simp
    rw [e, List.getLast?_append_of_ne_nil _ hne2] at h
    exact ih g hg.1 hg.2 (fun k hk => hfs k (List.mem_cons_of_mem _ hk)) h

theorem toString_digit (c : Int) (h1 : -9 ≤ c) (h2 : c ≤ 9) :
    ',' ∉ (toString c).data ∧ (toString c).data ≠ [] ∧ (0 ≤ c → (toString c).length = 1) := by
  interval_cases c <;> decide

/-! ## The loops of `formatCSVData` and `calculateModSum` run to their end -/

theorem calculateModSumLoop_isSome (p : Platform) (values : List CFloat) :
    ∀ (n i : Nat) (sum : Int), i + n ≤ values.length →
      ∃ s, ChronoSense.calculateModSumLoop p values n i sum = some s := by
  intro n
  induction n with
  | zero => intro i sum _; exact ⟨sum, rfl⟩
  | succ n ih =>
    intro i sum hlen
    have hi : i < values.length := by omega
    rw [ChronoSense.calculateModSumLoop, List.getElem?_eq_getElem hi]
    exact ih (i + 1) _ (by omega)

/-- With enough values `calculateModSum` returns, and its result lies between
`-9` and `9`. -/
theorem calculateModSum_isSome (p : Platform) (values : List CFloat) (count : Int)
    (hlen : count.toNat ≤ values.length) :
    ∃ c, ChronoSense.calculateModSum p values count = some c ∧ -9 ≤ c ∧ c ≤ 9 := by
  obtain ⟨s, hs⟩ := calculateModSumLoop_isSome p values count.toNat 0 0 (by omega)
  refine ⟨s.tmod 10, ?_, ?_, ?_⟩
  · unfold ChronoSense.calculateModSum
    rw [hs]
    rfl
  · exact (tmod_ten_bounds s).1
  · exact (tmod_ten_bounds s).2

theorem formatCSVDataLoop_eq (p : Platform) (values : List CFloat) :
    ∀ (n i : Nat) (csv : String), 0 < i → i + n ≤ values.length →
      ChronoSense.formatCSVDataLoop p values n i csv
        = some (String.intercalate.go csv "," (((values.drop i).take n).map p.floatString1)) := by
  intro n
  induction n with
  | zero =>
    intro i csv _ _
    simp [ChronoSense.formatCSVDataLoop, String.intercalate.go]
  | succ n ih =>
    intro i csv hpos hlen
    have hi : i < values.length := by omega
    rw [ChronoSense.formatCSVDataLoop, List.getElem?_eq_getElem hi]
    simp only
    rw [if_pos hpos, ih (i + 1) _ (by omega) (by omega)]
    rw [List.drop_eq_getElem_cons hi, List.take_succ_cons, List.map_cons,
      String.intercalate.go]

/-- The loop of `formatCSVData` joins the renderings of the first `n` values
with commas. -/
theorem formatCSVDataLoop_intercalate (p : Platform) (values : List CFloat) (n : Nat)
    (h1 : 1 ≤ n) (hlen : n ≤ values.length) :
    ChronoSense.formatCSVDataLoop p values n 0 ""
      = some (String.intercalate "," ((values.take n).map p.floatString1)) := by
  obtain ⟨m, rfl⟩ : ∃ m, n = m + 1 := ⟨n - 1, by omega⟩
  have h0 : 0 < values.length := by omega
  rw [ChronoSense.formatCSVDataLoop, List.getElem?_eq_getElem h0]
  simp only [gt_iff_lt, lt_self_iff_false, if_false]
  rw [formatCSVDataLoop_eq p values m 1 _ (by omega) (by omega)]
  have e : values.take (m + 1) = values[0] :: (values.drop 1).take m := by
    rw [← List.take_succ_cons, ← List.drop_eq_getElem_cons h0, List.drop_zero]
  rw [e, List.map_cons, String.intercalate]
  congr 2

/-- The characters of a comma-joined text followed by further comma-led fields. -/
theorem intercalate_data_append (r : String) (rs : List String) (extra : List (List Char)) :
    (String.intercalate "," (r :: rs)).data ++ (extra.map (fun g => ',' :: g)).flatten
      = r.data ++ ((rs.map String.data ++ extra).map (fun g => ',' :: g)).flatten := by
  rw [String.intercalate, intercalate_go_data]
  simp [List.map_append, List.map_map, Function.comp_def, List.append_assoc]

/-- The text `formatCSVData` returns, with the checksum `calculateModSum` yields. -/
theorem formatCSVData_eq (p : Platform) (cs : ChronoSense) (sensorType : String)
    (values : List CFloat) (count : Int) (h1 : 1 ≤ count) (hlen : count.toNat ≤ values.length)
    (checksum : Int) (hc : ChronoSense.calculateModSum p values count = some checksum) :
    ChronoSense.formatCSVData p cs sensorType values count
      = some (String.intercalate "," ((values.take count.toNat).map p.floatString1)
          ++ (if cs.checksumEnabled then "," ++ toString checksum else "")) := by
  unfold ChronoSense.formatCSVData
  rw [formatCSVDataLoop_intercalate p values count.toNat (by omega) hlen, hc]
  cases cs.checksumEnabled
  · simp
  · simp

/-! ## The core's rendering is a field -/

theorem digitChar_ne_comma (k : Nat) (h : k < 10) : Nat.digitChar k ≠ ',' := by
  interval_cases k <;> decide

theorem toDigitsCore_no_comma : ∀ (fuel n : Nat) (ds : List Char), ',' ∉ ds →
    ',' ∉ Nat.toDigitsCore 10 fuel n ds := by
  intro fuel
  induction fuel with
  | zero => intro n ds h; simpa [Nat.toDigitsCore] using h
  | succ fuel ih =>
    intro n ds h
    have hd : ',' ∉ Nat.digitChar (n % 10) :: ds := by
      intro hm
      rcases List.mem_cons.mp hm with e | e
      · exact digitChar_ne_comma (n % 10) (Nat.mod_lt _ (by norm_num)) e.symm
      · exact h e
    rw [Nat.toDigitsCore]
    by_cases h0 : n / 10 = 0
    · simp only [h0, if_true]
      exact hd
    · simp only [h0, if_false]
      exact ih _ _ hd

theorem toDigitsCore_ne_nil : ∀ (fuel n : Nat) (ds : List Char), ds ≠ [] →
    Nat.toDigitsCore 10 fuel n ds ≠ [] := by
  intro fuel
  induction fuel with
  | zero => intro n ds h; simpa [Nat.toDigitsCore] using h
  | succ fuel ih =>
    intro n ds _
    rw [Nat.toDigitsCore]
    by_cases h0 : n / 10 = 0
    · simp [h0]
    · simp only [h0, if_false]
      exact ih _ _ (by simp)

theorem toString_nat_field (n : Nat) :
    (toString n).data ≠ [] ∧ ',' ∉ (toString n).data := by
  have e : (toString n).data = Nat.toDigitsCore 10 (n + 1) n [] := rfl
  rw [e]
  constructor
  · rw [Nat.toDigitsCore]
    by_cases h0 : n / 10 = 0
    · simp [h0]
    · simp only [h0, if_false]
      exact toDigitsCore_ne_nil _ _ _ (by simp)
  · exact toDigitsCore_no_comma _ _ _ (by simp)

/-- The core's one-decimal rendering of every float is non-empty and has no
comma. -/
theorem oneDecimal_field (v : CFloat) :
    (oneDecimal v).data ≠ [] ∧ ',' ∉ (oneDecimal v).data := by
  cases v with
  | nan => decide
  | inf b => cases b <;> decide
  | negZero => decide
  | fin q =>
    have ha := toString_nat_field ((20 * q.num.natAbs + q.den) / (2 * q.den) / 10)
    have hb := toString_nat_field ((20 * q.num.natAbs + q.den) / (2 * q.den) % 10)
    simp only [oneDecimal, String.data_append]
    constructor
    · simp [hb.1]
    · by_cases hneg : q.num < 0
      · simp [hneg, ha.2, hb.2]
      · simp [hneg, ha.2, hb.2]

/-- C3 (as amended). For a sequence of `n` values, `1 ≤ n ≤ 10`,
`formatCSVData` returns the renderings `String(v, 1)` of the values joined by
single commas in their order, followed by a comma and the decimal text of the
result of `calculateModSum` exactly when `checksumEnabled` is set.  When each
rendering is non-empty and has no comma, as every rendering of the Arduino
core is, splitting the text at its commas gives exactly the renderings (and
the checksum): `n` fields (`n + 1` with the checksum), none empty, and the
text neither starts nor ends with a comma.  When each value truncates to an
`int` other than `INT_MIN` the checksum text is one decimal digit. -/
theorem formatCSVData_joined_fields (p : Platform) (cs : ChronoSense) (sensorType : String)
    (values : List CFloat) (h1 : 1 ≤ values.length) (h10 : values.length ≤ 10) :
    ∃ checksum csv,
      ChronoSense.calculateModSum p values values.length = some checksum ∧
      ChronoSense.formatCSVData p cs sensorType values values.length = some csv ∧
      csv = String.intercalate "," (values.map p.floatString1)
              ++ (if cs.checksumEnabled then "," ++ toString checksum else "") ∧
      ((∀ v ∈ values, (p.floatString1 v).data ≠ [] ∧ ',' ∉ (p.floatString1 v).data) →
        csv.data.splitOn ',' = values.map (fun v => (p.floatString1 v).data)
              ++ (if cs.checksumEnabled then [(toString checksum).data] else []) ∧
        (csv.data.splitOn ',').length = values.length + (if cs.checksumEnabled then 1 else 0) ∧
        [] ∉ csv.data.splitOn ',' ∧
        csv.data.head? ≠ some ',' ∧ csv.data.getLast? ≠ some ',') ∧
      ((∀ v ∈ values, v.TruncatesToInt) →
        0 ≤ checksum ∧ checksum ≤ 9 ∧ (toString checksum).length = 1) ∧
      (p.floatString1 = oneDecimal →
        ∀ v ∈ values, (p.floatString1 v).data ≠ [] ∧ ',' ∉ (p.floatString1 v).data) := by
  have hn : ((values.length : Int)).toNat = values.length := Int.toNat_ofNat _
  obtain ⟨c, hc, hc1, hc2⟩ :=
    calculateModSum_isSome p values values.length (by rw [hn])
  have hfmt := formatCSVData_eq p cs sensorType values values.length (by omega)
    (by rw [hn]) c hc
  rw [hn, List.take_length] at hfmt
  obtain ⟨hcomma, hnonempty, hdigit⟩ := toString_digit c hc1 hc2
  refine ⟨c, _, hc, hfmt, rfl, ?_, ?_, ?_⟩
  · intro hr
    obtain ⟨v0, vs, rfl⟩ : ∃ v0 vs, values = v0 :: vs := by
      cases values with
      | nil => simp at h1
      | cons v0 vs => exact ⟨v0, vs, rfl⟩
    have hdata : (String.intercalate "," ((v0 :: vs).map p.floatString1)
          ++ (if cs.checksumEnabled then "," ++ toString c else "")).data
        = (p.floatString1 v0).data
          ++ ((vs.map (fun v => (p.floatString1 v).data)
              ++ (if cs.checksumEnabled then [(toString c).data] else [])).map
                (fun g => ',' :: g)).flatten := by
      rw [String.data_append, List.map_cons]
      have hx : (if cs.checksumEnabled then "," ++ toString c else "").data
          = ((if cs.checksumEnabled then [(toString c).data] else []).map
              (fun g => ',' :: g)).flatten := by
        cases cs.checksumEnabled
        · simp
        · simp [String.data_append]
      rw [hx, intercalate_data_append, List.map_map]
      rfl
    have hv0 := hr v0 (List.mem_cons_self _ _)
    have hfs : ∀ g ∈ vs.map (fun v => (p.floatString1 v).data)
        ++ (if cs.checksumEnabled then [(toString c).data] else []), ',' ∉ g ∧ g ≠ [] := by
      intro g hg
      rcases List.mem_append.mp hg with hg | hg
      · obtain ⟨v, hv, rfl⟩ := List.mem_map.mp hg
        exact ⟨(hr v (List.mem_cons_of_mem _ hv)).2, (hr v (List.mem_cons_of_mem _ hv)).1⟩
      · cases hce : cs.checksumEnabled
        · rw [hce] at hg
          simp at hg
        · rw [hce] at hg
          simp only [if_true, List.mem_singleton] at hg
          rw [hg]
          exact ⟨hcomma, hnonempty⟩
    have hsplit := splitOn_joined _ _ hv0.2 (fun g hg => (hfs g hg).1)
    rw [hdata, hsplit]
    refine ⟨by simp, ?_, ?_, joined_head _ _ hv0.2 hv0.1, joined_getLast _ _ hv0.2 hv0.1 hfs⟩
    · cases cs.checksumEnabled <;> simp
    · intro hmem
      rcases List.mem_cons.mp hmem with h | h
      · exact hv0.1 h.symm
      · exact (hfs [] h).2 rfl
  · intro hv
    have hform := calculateModSum_eq_formula p values values.length (by omega) (by rw [hn])
      (by rw [hn, List.take_length]; exact hv)
    rw [hc] at hform
    have hc0 : 0 ≤ c := by
      rw [Option.some.inj hform]
      exact Int.emod_nonneg _ (by norm_num)
    exact ⟨hc0, hc2, hdigit hc0⟩
  · intro hrender v _
    rw [hrender]
    exact oneDecimal_field v

/-- The three values `12.7f`, `-3.2f`, `100.0f` on the reference platform:
the text is `12.7,-3.2,100.0,5` and splits into four fields. -/
theorem formatCSVData_joined_fields_witness :
    1 ≤ [f12_7, fNeg3_2, f100].length ∧ [f12_7, fNeg3_2, f100].length ≤ 10 ∧
    ∃ csv, ChronoSense.formatCSVData referencePlatform connectedSerial "Temperature"
        [f12_7, fNeg3_2, f100] 3 = some csv ∧
      csv = "12.7,-3.2,100.0,5" ∧
      csv.data.splitOn ',' = ["12.7".data, "-3.2".data, "100.0".data, "5".data] := by
  obtain ⟨c, csv, hc, hf, hcsv, hfields, _⟩ :=
    formatCSVData_joined_fields referencePlatform connectedSerial "Temperature"
      [f12_7, fNeg3_2, f100] (by decide) (by decide)
  have h5 : c = 5 := by
    have e : ChronoSense.calculateModSum referencePlatform [f12_7, fNeg3_2, f100]
        (([f12_7, fNeg3_2, f100] : List CFloat).length : Int) = some 5 := by decide
    rw [e] at hc
    exact (Option.some.inj hc).symm
  subst h5
  have hsplit := (hfields (by decide)).1
  refine ⟨by decide, by decide, csv, hf, ?_, ?_⟩
  · rw [hcsv]; decide
  · rw [hsplit]; decide

/-! ## Checksum claims -/

/-- C1 (as amended). For `count ≤ 10` and at least `count` values, each of the
first `count` values truncating toward zero to an `int` other than `INT_MIN`,
`calculateModSum(float[], count)` and `ChronoSenseUtils::calculateChecksum`
return the sum of `|trunc v| mod 10` over those values, modulo 10, where
`trunc` cuts the fractional part off (it does not round to nearest). -/
theorem calculateModSum_truncates (p : Platform) (values : List CFloat) (count : Int)
    (h10 : count ≤ 10) (hlen : count.toNat ≤ values.length)
    (hv : ∀ v ∈ values.take count.toNat, v.TruncatesToInt) :
    ChronoSense.calculateModSum p values count
        = some (checksumFormula CFloat.trunc (values.take count.toNat)) ∧
      ChronoSenseUtils.calculateChecksum p values count
        = some (checksumFormula CFloat.trunc (values.take count.toNat)) := by
  rw [calculateChecksum_eq_calculateModSum]
  exact ⟨calculateModSum_eq_formula p values count h10 hlen hv,
    calculateModSum_eq_formula p values count h10 hlen hv⟩

/-- The truncation formula at the three values `12.7f`, `-3.2f`, `100.0f`. -/
theorem calculateModSum_truncates_witness :
    (3 : Int) ≤ 10 ∧ (3 : Int).toNat ≤ [f12_7, fNeg3_2, f100].length ∧
    (∀ v ∈ [f12_7, fNeg3_2, f100].take (3 : Int).toNat, v.TruncatesToInt) ∧
    (ChronoSense.calculateModSum referencePlatform [f12_7, fNeg3_2, f100] 3
        = some (checksumFormula CFloat.trunc ([f12_7, fNeg3_2, f100].take (3 : Int).toNat)) ∧
      ChronoSenseUtils.calculateChecksum referencePlatform [f12_7, fNeg3_2, f100] 3
        = some (checksumFormula CFloat.trunc ([f12_7, fNeg3_2, f100].take (3 : Int).toNat))) :=
  ⟨by decide, by decide, by decide,
    calculateModSum_truncates referencePlatform [f12_7, fNeg3_2, f100] 3
      (by decide) (by decide) (by decide)⟩

/-- C1 (as stated) fails. The single value `12.7f` rounds to `13`, so the
rounding formula gives `3`, while both functions return `2`; and the value
`-2147483648.0`, which is within `int` range, yields `-8` where the formula
gives `8`. -/
theorem calculateModSum_rounding_counterexample :
    CFloat.round f12_7 = 13 ∧
    checksumFormula CFloat.round [f12_7] = 3 ∧
    ChronoSense.calculateModSum referencePlatform [f12_7] 1 = some 2 ∧
    ChronoSenseUtils.calculateChecksum referencePlatform [f12_7] 1 = some 2 ∧
    checksumFormula CFloat.round [.fin (-2147483648)] = 8 ∧
    ChronoSense.calculateModSum referencePlatform [.fin (-2147483648)] 1 = some (-8) := by
  decide

/-- C2 (as amended). On every platform the checksum of `[12.7, -3.2, 100.0]`
computed by `calculateModSum(float[], 3)` and by
`ChronoSenseUtils::calculateChecksum` is `5`, that is `(2 + 3 + 0) mod 10`. -/
theorem calculateModSum_example_is_five (p : Platform) :
    ChronoSense.calculateModSum p [f12_7, fNeg3_2, f100] 3 = some 5 ∧
      ChronoSenseUtils.calculateChecksum p [f12_7, fNeg3_2, f100] 3 = some 5 :=
  ⟨rfl, rfl⟩

/-- C2 (as stated) fails. The checksum of `[12.7, -3.2, 100.0]` is `5`, not `4`. -/
theorem calculateModSum_example_counterexample :
    ChronoSense.calculateModSum referencePlatform [f12_7, fNeg3_2, f100] 3 = some 5 ∧
    ChronoSenseUtils.calculateChecksum referencePlatform [f12_7, fNeg3_2, f100] 3 = some 5 ∧
    ¬ (ChronoSense.calculateModSum referencePlatform [f12_7, fNeg3_2, f100] 3 = some 4) ∧
    ¬ (ChronoSenseUtils.calculateChecksum referencePlatform [f12_7, fNeg3_2, f100] 3 = some 4) := by
  decide

/-! ## Guards of `sendSensorData` -/

/-- The first test of `sendSensorData`: when it fires the call returns `false`
at once. -/
theorem sendSensorData_of_failed_guard (p : Platform) (cs : ChronoSense)
    (millisEnvelope millisSend : Nat) (sensorType : String) (values : List CFloat)
    (count : Int) (h : cs.connected = false ∨ count < 1 ∨ 10 < count) :
    ChronoSense.sendSensorData p cs millisEnvelope millisSend sensorType values count
      = some { value := false, state := cs, trace := [] } := by
  unfold ChronoSense.sendSensorData
  rw [if_pos]
  rcases h with h | h | h
  · simp [h]
  · have : count ≤ 0 := by omega
    simp [this]
  · simp [h]

/-- C4. With a count outside `[1, 10]`, in every state and for every sensor
kind and values, `sendSensorData` returns `false`, makes no call at all (no
`transmitString`, no callback) and leaves the instance as it was, so the
connection flag and `lastTransmission` are unchanged. -/
theorem sendSensorData_count_out_of_range (p : Platform) (cs : ChronoSense)
    (millisEnvelope millisSend : Nat) (sensorType : String) (values : List CFloat)
    (count : Int) (h : count < 1 ∨ 10 < count) :
    ChronoSense.sendSensorData p cs millisEnvelope millisSend sensorType values count
      = some { value := false, state := cs, trace := [] } :=
  sendSensorData_of_failed_guard p cs millisEnvelope millisSend sensorType values count
    (Or.inr h)

/-- Counts `0` and `11` on a connected instance. -/
theorem sendSensorData_count_out_of_range_witness :
    ((0 : Int) < 1 ∨ (10 : Int) < 0) ∧ ((11 : Int) < 1 ∨ (10 : Int) < 11) ∧
    ChronoSense.sendSensorData referencePlatform connectedSerial 5 7 "Temperature" [] 0
      = some { value := false, state := connectedSerial, trace := [] } ∧
    ChronoSense.sendSensorData referencePlatform connectedSerial 5 7 "Temperature"
        (List.replicate 11 f100) 11
      = some { value := false, state := connectedSerial, trace := [] } :=
  ⟨by decide, by decide,
    sendSensorData_count_out_of_range referencePlatform connectedSerial 5 7 "Temperature" [] 0
      (by decide),
    sendSensorData_count_out_of_range referencePlatform connectedSerial 5 7 "Temperature"
      (List.replicate 11 f100) 11 (by decide)⟩

/-- C5. While the connection flag is `false`, for every sensor kind, values
and count, `sendSensorData` returns `false` with an empty trace (neither
`validateSensorData` nor `formatCSVData` nor `transmitString` is called, no
callback fires) and leaves the instance, `lastTransmission` included, as it was. -/
theorem sendSensorData_not_connected (p : Platform) (cs : ChronoSense)
    (millisEnvelope millisSend : Nat) (sensorType : String) (values : List CFloat)
    (count : Int) (h : cs.connected = false) :
    ChronoSense.sendSensorData p cs millisEnvelope millisSend sensorType values count
      = some { value := false, state := cs, trace := [] } :=
  sendSensorData_of_failed_guard p cs millisEnvelope millisSend sensorType values count
    (Or.inl h)

/-- A freshly constructed instance is not connected and sends nothing. -/
theorem sendSensorData_not_connected_witness :
    (ChronoSense.new .CS_USB_SERIAL).connected = false ∧
    ChronoSense.sendSensorData referencePlatform (ChronoSense.new .CS_USB_SERIAL) 5 7
        "Temperature" [f100] 1
      = some { value := false, state := ChronoSense.new .CS_USB_SERIAL, trace := [] } :=
  ⟨by decide,
    sendSensorData_not_connected referencePlatform (ChronoSense.new .CS_USB_SERIAL) 5 7
      "Temperature" [f100] 1 (by decide)⟩

/-! ## Validation -/

/-- The first loop of `validateSensorData` returns whether the next `n` values
are all finite. -/
theorem validateSensorDataLoop_eq (values : List CFloat) :
    ∀ (n i : Nat), i + n ≤ values.length →
      ChronoSense.validateSensorDataLoop values n i
        = some (((values.drop i).take n).all CFloat.isFinite) := by
  intro n
  induction n with
  | zero => intro i _; simp [ChronoSense.validateSensorDataLoop]
  | succ n ih =>
    intro i hlen
    have hi : i < values.length := by omega
    rw [ChronoSense.validateSensorDataLoop, List.getElem?_eq_getElem hi,
      List.drop_eq_getElem_cons hi, List.take_succ_cons, List.all_cons]
    simp only
    by_cases hf : (values[i].isnan || values[i].isinf) = true
    · rw [if_pos hf]
      simp [CFloat.isFinite, hf]
    · rw [if_neg hf, ih (i + 1) (by omega)]
      simp [CFloat.isFinite, hf]

/-- On a finite float the two comparisons of a range test decide whether its
value lies between the bounds. -/
theorem ge_and_le_of_isFinite (v : CFloat) (hv : v.isFinite = true) (lo hi : Int) :
    (v.ge (CFloat.ofInt lo) && v.le (CFloat.ofInt hi))
      = decide ((lo : ℚ) ≤ v.value ∧ v.value ≤ (hi : ℚ)) := by
  cases v with
  | nan => simp [CFloat.isFinite, CFloat.isnan] at hv
  | inf b => simp [CFloat.isFinite, CFloat.isnan, CFloat.isinf] at hv
  | negZero =>
    simp [CFloat.ge, CFloat.le, CFloat.ofInt, CFloat.value, Bool.decide_and]
  | fin q =>
    simp [CFloat.ge, CFloat.le, CFloat.ofInt, CFloat.value, Bool.decide_and]

theorem inRange_of_isFinite (values : List CFloat) (i : Nat) (v : CFloat) (lo hi : Int)
    (hget : values[i]? = some v) (hv : v.isFinite = true) :
    ChronoSense.inRange values i lo hi
      = some (decide ((lo : ℚ) ≤ v.value ∧ v.value ≤ (hi : ℚ))) := by
  unfold ChronoSense.inRange
  rw [hget]
  simp only
  rw [ge_and_le_of_isFinite v hv]

/-- The result of `validateSensorData` when the finiteness loop runs over
values that are present. -/
theorem validateSensorData_of_length (values : List CFloat) (count : Int) (sensorType : String)
    (hlen : count.toNat ≤ values.length) :
    ChronoSense.validateSensorData values count sensorType
      = if (values.take count.toNat).all CFloat.isFinite = true then
          (if (sensorType == "CO2" && decide (count ≥ 3)) = true then
            match ChronoSense.inRange values 0 0 50000 with
            | none => none
            | some false => some false
            | some true =>
              match ChronoSense.inRange values 1 (-40) 85 with
              | none => none
              | some false => some false
              | some true => ChronoSense.inRange values 2 0 100
          else if (sensorType == "Temperature") = true then
            ChronoSense.inRange values 0 (-40) 125
          else if (sensorType == "Distance") = true then
            ChronoSense.inRange values 0 0 400
          else some true)
        else some false := by
  unfold ChronoSense.validateSensorData
  rw [validateSensorDataLoop_eq values count.toNat 0 (by omega), List.drop_zero]
  cases h : (values.take count.toNat).all CFloat.isFinite
  · simp
  · simp

/-- C6. For kind "Temperature", `count ≥ 1` and finite values,
`validateSensorData` accepts exactly when `-40 ≤ value[0] ≤ 125`, bounds
included; it accepts `-40` and `125` and rejects `-40.01` and `125.01`. -/
theorem validateSensorData_temperature :
    (∀ (v0 : CFloat) (rest : List CFloat) (count : Int),
      1 ≤ count → count.toNat ≤ (v0 :: rest).length →
      (∀ v ∈ (v0 :: rest).take count.toNat, v.isFinite = true) →
      ChronoSense.validateSensorData (v0 :: rest) count "Temperature"
        = some (decide (-40 ≤ v0.value ∧ v0.value ≤ 125))) ∧
    ChronoSense.validateSensorData [.fin (-40)] 1 "Temperature" = some true ∧
    ChronoSense.validateSensorData [.fin 125] 1 "Temperature" = some true ∧
    ChronoSense.validateSensorData [fNeg40_01] 1 "Temperature" = some false ∧
    ChronoSense.validateSensorData [f125_01] 1 "Temperature" = some false := by
  refine ⟨?_, by decide, by decide, by decide, by decide⟩
  intro v0 rest count h1 hlen hfin
  have hall : ((v0 :: rest).take count.toNat).all CFloat.isFinite = true :=
    List.all_eq_true.mpr hfin
  have hv0 : v0.isFinite = true := by
    apply hfin
    obtain ⟨m, hm⟩ : ∃ m, count.toNat = m + 1 := ⟨count.toNat - 1, by omega⟩
    rw [hm, List.take_succ_cons]
    exact List.mem_cons_self _ _
  have hcond : ¬ ("Temperature" == "CO2" && decide (count ≥ 3)) = true := by
    have : ("Temperature" == "CO2") = false := by decide
    simp [this]
  rw [validateSensorData_of_length _ _ _ hlen, if_pos hall, if_neg hcond,
    if_pos (by decide), inRange_of_isFinite (v0 :: rest) 0 v0 (-40) 125 (by simp) hv0]
  norm_num

/-- A temperature reading of two finite values. -/
theorem validateSensorData_temperature_witness :
    ChronoSense.validateSensorData [.fin 20, .fin 55] 2 "Temperature"
      = some (decide (-40 ≤ (CFloat.fin 20).value ∧ (CFloat.fin 20).value ≤ 125)) :=
  validateSensorData_temperature.1 (.fin 20) [.fin 55] 2 (by decide) (by decide) (by decide)

/-- C7. For kind "CO2" with `count ≥ 3` and finite values,
`validateSensorData` accepts exactly when `0 ≤ value[0] ≤ 50000`,
`-40 ≤ value[1] ≤ 85` and `0 ≤ value[2] ≤ 100`, bounds included; with count
`1` or `2` it applies no range check and accepts every finite reading. -/
theorem validateSensorData_co2 :
    (∀ (v0 v1 v2 : CFloat) (rest : List CFloat) (count : Int),
      3 ≤ count → count.toNat ≤ (v0 :: v1 :: v2 :: rest).length →
      (∀ v ∈ (v0 :: v1 :: v2 :: rest).take count.toNat, v.isFinite = true) →
      ChronoSense.validateSensorData (v0 :: v1 :: v2 :: rest) count "CO2"
        = some (decide ((0 ≤ v0.value ∧ v0.value ≤ 50000) ∧
            (-40 ≤ v1.value ∧ v1.value ≤ 85) ∧ (0 ≤ v2.value ∧ v2.value ≤ 100)))) ∧
    (∀ (values : List CFloat) (count : Int),
      count = 1 ∨ count = 2 → count.toNat ≤ values.length →
      (∀ v ∈ values.take count.toNat, v.isFinite = true) →
      ChronoSense.validateSensorData values count "CO2" = some true) := by
  constructor
  · intro v0 v1 v2 rest count h3 hlen hfin
    have hall : ((v0 :: v1 :: v2 :: rest).take count.toNat).all CFloat.isFinite = true :=
      List.all_eq_true.mpr hfin
    obtain ⟨m, hm⟩ : ∃ m, count.toNat = m + 3 := ⟨count.toNat - 3, by omega⟩
    rw [hm] at hfin
    simp only [List.take_succ_cons, List.mem_cons] at hfin
    have hv0 : v0.isFinite = true := hfin v0 (Or.inl rfl)
    have hv1 : v1.isFinite = true := hfin v1 (Or.inr (Or.inl rfl))
    have hv2 : v2.isFinite = true := hfin v2 (Or.inr (Or.inr (Or.inl rfl)))
    have hcond : ("CO2" == "CO2" && decide (count ≥ 3)) = true := by simp [h3]
    rw [validateSensorData_of_length _ _ _ hlen, if_pos hall, if_pos hcond,
      inRange_of_isFinite _ 0 v0 0 50000 (by simp) hv0,
      inRange_of_isFinite _ 1 v1 (-40) 85 (by simp) hv1,
      inRange_of_isFinite _ 2 v2 0 100 (by simp) hv2]
    by_cases h0 : (0 : ℚ) ≤ v0.value ∧ v0.value ≤ 50000 <;>
      by_cases h1 : (-40 : ℚ) ≤ v1.value ∧ v1.value ≤ 85 <;>
      simp [h0, h1]
  · intro values count hc hlen hfin
    have hall : (values.take count.toNat).all CFloat.isFinite = true :=
      List.all_eq_true.mpr hfin
    have hcond : ¬ ("CO2" == "CO2" && decide (count ≥ 3)) = true := by
      rcases hc with rfl | rfl <;> decide
    rw [validateSensorData_of_length _ _ _ hlen, if_pos hall, if_neg hcond,
      if_neg (by decide), if_neg (by decide)]

/-- A CO2 reading of three values in range, and a single value out of range
that is accepted because the count is one. -/
theorem validateSensorData_co2_witness :
    ChronoSense.validateSensorData [.fin 400, .fin 21, .fin 45] 3 "CO2"
      = some (decide ((0 ≤ (CFloat.fin 400).value ∧ (CFloat.fin 400).value ≤ 50000) ∧
          (-40 ≤ (CFloat.fin 21).value ∧ (CFloat.fin 21).value ≤ 85) ∧
          (0 ≤ (CFloat.fin 45).value ∧ (CFloat.fin 45).value ≤ 100))) ∧
    ChronoSense.validateSensorData [.fin 60000] 1 "CO2" = some true :=
  ⟨validateSensorData_co2.1 (.fin 400) (.fin 21) (.fin 45) [] 3 (by decide) (by decide)
      (by decide),
    validateSensorData_co2.2 [.fin 60000] 1 (by decide) (by decide) (by decide)⟩

/-- C8. For every sensor kind and count, with at least `count` values
present: if one of the first `count` values is NaN or infinite,
`validateSensorData` rejects; and for a kind other than "CO2", "Temperature"
and "Distance" it accepts exactly when all of the first `count` values are
finite. -/
theorem validateSensorData_nonfinite (values : List CFloat) (count : Int) (sensorType : String)
    (hlen : count.toNat ≤ values.length) :
    ((∃ v ∈ values.take count.toNat, v.isnan = true ∨ v.isinf = true) →
      ChronoSense.validateSensorData values count sensorType = some false) ∧
    (sensorType ≠ "CO2" → sensorType ≠ "Temperature" → sensorType ≠ "Distance" →
      ChronoSense.validateSensorData values count sensorType
        = some ((values.take count.toNat).all CFloat.isFinite)) := by
  rw [validateSensorData_of_length _ _ _ hlen]
  constructor
  · rintro ⟨v, hv, hbad⟩
    have hall : ¬ (values.take count.toNat).all CFloat.isFinite = true := by
      intro h
      have := List.all_eq_true.mp h v hv
      rcases hbad with hb | hb <;> simp [CFloat.isFinite, hb] at this
    rw [if_neg hall]
  · intro h1 h2 h3
    have c1 : ¬ (sensorType == "CO2" && decide (count ≥ 3)) = true := by simp [h1]
    have c2 : ¬ (sensorType == "Temperature") = true := by simp [h2]
    have c3 : ¬ (sensorType == "Distance") = true := by simp [h3]
    rw [if_neg c1, if_neg c2, if_neg c3]
    cases (values.take count.toNat).all CFloat.isFinite <;> simp

/-- Readings with a NaN, with an infinity, and with finite values only. -/
theorem validateSensorData_nonfinite_witness :
    (3 : Int).toNat ≤ [CFloat.fin 400, CFloat.nan, CFloat.fin 45].length ∧
    ChronoSense.validateSensorData [.fin 400, .nan, .fin 45] 3 "CO2" = some false ∧
    ChronoSense.validateSensorData [.fin 400, .inf true, .fin 45] 3 "Accelerometer"
      = some false ∧
    ChronoSense.validateSensorData [.fin 400, .fin 21, .fin 45] 3 "Accelerometer"
      = some true :=
  ⟨by decide,
    (validateSensorData_nonfinite [.fin 400, .nan, .fin 45] 3 "CO2" (by decide)).1
      ⟨.nan, by decide, by decide⟩,
    (validateSensorData_nonfinite [.fin 400, .inf true, .fin 45] 3 "Accelerometer"
      (by decide)).2 (by decide) (by decide) (by decide),
    (validateSensorData_nonfinite [.fin 400, .fin 21, .fin 45] 3 "Accelerometer"
      (by decide)).2 (by decide) (by decide) (by decide)⟩

/-! ## Sending -/

theorem inRange_isSome (values : List CFloat) (i : Nat) (lo hi : Int) (hi' : i < values.length) :
    ∃ ok, ChronoSense.inRange values i lo hi = some ok := by
  unfold ChronoSense.inRange
  rw [List.getElem?_eq_getElem hi']
  exact ⟨_, rfl⟩

/-- With a positive count and that many values present, `validateSensorData`
returns. -/
theorem validateSensorData_isSome (values : List CFloat) (count : Int) (sensorType : String)
    (h1 : 1 ≤ count) (hlen : count.toNat ≤ values.length) :
    ∃ ok, ChronoSense.validateSensorData values count sensorType = some ok := by
  rw [validateSensorData_of_length _ _ _ hlen]
  by_cases hall : (values.take count.toNat).all CFloat.isFinite = true
  · rw [if_pos hall]
    by_cases c1 : (sensorType == "CO2" && decide (count ≥ 3)) = true
    · rw [if_pos c1]
      have h3 : 3 ≤ count := of_decide_eq_true (Bool.and_eq_true _ _ ▸ c1).2
      obtain ⟨a, ha⟩ := inRange_isSome values 0 0 50000 (by omega)
      obtain ⟨b, hb⟩ := inRange_isSome values 1 (-40) 85 (by omega)
      obtain ⟨c, hc⟩ := inRange_isSome values 2 0 100 (by omega)
      rw [ha, hb, hc]
      cases a <;> cases b <;> exact ⟨_, rfl⟩
    · rw [if_neg c1]
      by_cases c2 : (sensorType == "Temperature") = true
      · rw [if_pos c2]
        exact inRange_isSome values 0 (-40) 125 (by omega)
      · rw [if_neg c2]
        by_cases c3 : (sensorType == "Distance") = true
        · rw [if_pos c3]
          exact inRange_isSome values 0 0 400 (by omega)
        · rw [if_neg c3]
          exact ⟨_, rfl⟩
  · rw [if_neg hall]
    exact ⟨_, rfl⟩

/-- With a positive count and that many values present, `formatCSVData` returns. -/
theorem formatCSVData_isSome (p : Platform) (cs : ChronoSense) (sensorType : String)
    (values : List CFloat) (count : Int) (h1 : 1 ≤ count) (hlen : count.toNat ≤ values.length) :
    ∃ csv, ChronoSense.formatCSVData p cs sensorType values count = some csv := by
  obtain ⟨c, hc, _, _⟩ := calculateModSum_isSome p values count hlen
  exact ⟨_, formatCSVData_eq p cs sensorType values count h1 hlen c hc⟩

/-- The body of `sendSensorData` once its first test has let the call through. -/
theorem sendSensorData_of_guard (p : Platform) (cs : ChronoSense)
    (millisEnvelope millisSend : Nat) (sensorType : String) (values : List CFloat)
    (count : Int) (hconn : cs.connected = true) (h1 : 1 ≤ count) (h10 : count ≤ 10) :
    ChronoSense.sendSensorData p cs millisEnvelope millisSend sensorType values count
      = if cs.validation.toNat ≥ ValidationLevel.VALIDATE_BASIC.toNat then
          match ChronoSense.validateSensorData values count sensorType with
          | none => none
          | some false =>
            some {
              value := false
              state := cs
              trace := [.validateSensorData]
                ++ (if p.csDebug then
                      [.debugPrintln ("Data validation failed for " ++ sensorType)]
                    else []) }
          | some true =>
            ChronoSense.sendSensorDataSend p cs millisEnvelope millisSend sensorType values
              count [.validateSensorData]
        else
          ChronoSense.sendSensorDataSend p cs millisEnvelope millisSend sensorType values
            count [] := by
  unfold ChronoSense.sendSensorData
  rw [if_neg]
  have a : ¬ count ≤ 0 := by omega
  have b : ¬ count > 10 := by omega
  simp [hconn, a, b]

/-- C9. On a connected instance with a count in `[1, 10]` and that many
values present: with level `VALIDATE_NONE`, `sendSensorData` calls neither
`validateSensorData` nor anything else before it encodes, hands the encoded
text to `transmitString`, records the time and returns `true`, whatever the
values are; with any other level it returns exactly what `validateSensorData`
returns for the reading, the same for Basic, Checksum and Full. -/
theorem sendSensorData_validation_levels (p : Platform) (cs : ChronoSense)
    (millisEnvelope millisSend : Nat) (sensorType : String) (values : List CFloat)
    (count : Int) (hconn : cs.connected = true) (h1 : 1 ≤ count) (h10 : count ≤ 10)
    (hlen : count.toNat ≤ values.length) :
    (cs.validation = .VALIDATE_NONE →
      ∃ csv, ChronoSense.formatCSVData p cs sensorType values count = some csv ∧
        ChronoSense.sendSensorData p cs millisEnvelope millisSend sensorType values count
          = some {
              value := true
              state := { cs with lastTransmission := millisSend }
              trace := [.formatCSVData, .transmitString csv]
                ++ ChronoSense.transmitString p cs millisEnvelope csv
                ++ (if cs.onDataSentCallback then [.onDataSent csv] else []) }) ∧
    (cs.validation ≠ .VALIDATE_NONE →
      ∃ ok, ChronoSense.validateSensorData values count sensorType = some ok ∧
        (ChronoSense.sendSensorData p cs millisEnvelope millisSend sensorType values
          count).map (fun out => out.value) = some ok) := by
  rw [sendSensorData_of_guard p cs millisEnvelope millisSend sensorType values count hconn h1 h10]
  obtain ⟨csv, hcsv⟩ := formatCSVData_isSome p cs sensorType values count h1 hlen
  constructor
  · intro hnone
    refine ⟨csv, hcsv, ?_⟩
    have hlt : ¬ cs.validation.toNat ≥ ValidationLevel.VALIDATE_BASIC.toNat := by
      rw [hnone]
      decide
    rw [if_neg hlt]
    unfold ChronoSense.sendSensorDataSend
    rw [hcsv]
    rfl
  · intro hlevel
    obtain ⟨ok, hok⟩ := validateSensorData_isSome values count sensorType h1 hlen
    refine ⟨ok, hok, ?_⟩
    have hge : cs.validation.toNat ≥ ValidationLevel.VALIDATE_BASIC.toNat := by
      cases hv : cs.validation
      · exact absurd hv hlevel
      all_goals decide
    rw [if_pos hge, hok]
    cases ok
    · rfl
    · unfold ChronoSense.sendSensorDataSend
      rw [hcsv]
      rfl

/-- Level None sends a NaN; level Checksum (the constructor's) rejects the
temperature `500`. -/
theorem sendSensorData_validation_levels_witness :
    connectedSerialNoValidation.connected = true ∧ (1 : Int) ≤ 1 ∧ (1 : Int) ≤ 10 ∧
    (1 : Int).toNat ≤ [CFloat.nan].length ∧
    (∃ csv, ChronoSense.formatCSVData referencePlatform connectedSerialNoValidation
          "Temperature" [.nan] 1 = some csv ∧
        ChronoSense.sendSensorData referencePlatform connectedSerialNoValidation 5 7
            "Temperature" [.nan] 1
          = some {
              value := true
              state := { connectedSerialNoValidation with lastTransmission := 7 }
              trace := [.formatCSVData, .transmitString csv]
                ++ ChronoSense.transmitString referencePlatform connectedSerialNoValidation 5 csv
                ++ (if connectedSerialNoValidation.onDataSentCallback then [.onDataSent csv]
                    else []) }) ∧
    (∃ ok, ChronoSense.validateSensorData [.fin 500] 1 "Temperature" = some ok ∧
        (ChronoSense.sendSensorData referencePlatform connectedSerial 5 7 "Temperature"
          [.fin 500] 1).map (fun out => out.value) = some ok) :=
  ⟨by decide, by decide, by decide, by decide,
    (sendSensorData_validation_levels referencePlatform connectedSerialNoValidation 5 7
      "Temperature" [.nan] 1 (by decide) (by decide) (by decide) (by decide)).1 rfl,
    (sendSensorData_validation_levels referencePlatform connectedSerial 5 7
      "Temperature" [.fin 500] 1 (by decide) (by decide) (by decide) (by decide)).2
      (by decide)⟩

/-! ## The checksum field of a transmitted payload -/

theorem payloads_append (xs ys : List Event) : payloads (xs ++ ys) = payloads xs ++ payloads ys := by
  induction xs with
  | nil => rfl
  | cons e es ih => cases e <;> simp [payloads, ih]

/-- The transports make no call of `transmitString`. -/
theorem payloads_transmitString (p : Platform) (cs : ChronoSense) (millis : Nat) (data : String) :
    payloads (ChronoSense.transmitString p cs millis data) = [] := by
  unfold ChronoSense.transmitString
  cases cs.mode <;> cases p.esp32 <;> cases p.csDebug <;> cases cs.webSocket <;>
    cases cs.connected <;> cases cs.bluetooth <;> rfl

/-- A loop of `formatCSVData` that returns has read only values that are present. -/
theorem formatCSVDataLoop_length (p : Platform) (values : List CFloat) :
    ∀ (n i : Nat) (csv r : String),
      ChronoSense.formatCSVDataLoop p values n i csv = some r → n = 0 ∨ i + n ≤ values.length := by
  intro n
  induction n with
  | zero => intro i csv r _; exact Or.inl rfl
  | succ n ih =>
    intro i csv r h
    right
    rw [ChronoSense.formatCSVDataLoop] at h
    by_cases hi : i < values.length
    · rw [List.getElem?_eq_getElem hi] at h
      rcases ih _ _ _ h with h0 | hle <;> omega
    · rw [List.getElem?_eq_none (by omega)] at h
      exact absurd h (by simp)

theorem formatCSVData_length (p : Platform) (cs : ChronoSense) (sensorType : String)
    (values : List CFloat) (count : Int) (csv : String)
    (h : ChronoSense.formatCSVData p cs sensorType values count = some csv) :
    count.toNat ≤ values.length := by
  unfold ChronoSense.formatCSVData at h
  cases hl : ChronoSense.formatCSVDataLoop p values count.toNat 0 "" with
  | none => rw [hl] at h; exact absurd h (by simp)
  | some r =>
    rcases formatCSVDataLoop_length p values _ _ _ _ hl with h0 | hle <;> omega

/-- The payloads of a call of `sendSensorDataSend` that begins with no payload. -/
theorem sendSensorDataSend_payloads (p : Platform) (cs : ChronoSense)
    (millisEnvelope millisSend : Nat) (sensorType : String) (values : List CFloat)
    (count : Int) (pre : List Event) (hpre : payloads pre = []) (out : Outcome Bool)
    (h : ChronoSense.sendSensorDataSend p cs millisEnvelope millisSend sensorType values count pre
      = some out) :
    ∃ csv, ChronoSense.formatCSVData p cs sensorType values count = some csv ∧
      payloads out.trace = [csv] := by
  unfold ChronoSense.sendSensorDataSend at h
  cases hf : ChronoSense.formatCSVData p cs sensorType values count with
  | none => rw [hf] at h; exact absurd h (by simp)
  | some csv =>
    rw [hf] at h
    refine ⟨csv, rfl, ?_⟩
    rw [← Option.some.inj h]
    simp only [payloads_append, hpre, payloads_transmitString]
    cases cs.onDataSentCallback <;> rfl

/-- C10 (as amended). Whatever the validation level, every payload that
`sendSensorData` hands to `transmitString` on a successful call is the joined
renderings followed by a comma and the checksum text exactly when
`checksumEnabled` is set; with the flag clear it is the joined renderings
alone, also at level Checksum or Full. -/
theorem sendSensorData_payload_checksum (p : Platform) (cs : ChronoSense)
    (millisEnvelope millisSend : Nat) (sensorType : String) (values : List CFloat)
    (count : Int) (out : Outcome Bool)
    (hsend : ChronoSense.sendSensorData p cs millisEnvelope millisSend sensorType values count
      = some out)
    (hok : out.value = true) :
    ∃ checksum, ChronoSense.calculateModSum p values count = some checksum ∧
      payloads out.trace
        = [String.intercalate "," ((values.take count.toNat).map p.floatString1)
            ++ (if cs.checksumEnabled then "," ++ toString checksum else "")] := by
  have hguard : cs.connected = true ∧ 1 ≤ count ∧ count ≤ 10 := by
    by_cases hc : cs.connected = true
    · by_cases hr : count < 1 ∨ 10 < count
      · rw [sendSensorData_of_failed_guard p cs millisEnvelope millisSend sensorType
          values count (Or.inr hr)] at hsend
        rw [← Option.some.inj hsend] at hok
        exact absurd hok (by simp)
      · exact ⟨hc, by omega, by omega⟩
    · rw [sendSensorData_of_failed_guard p cs millisEnvelope millisSend sensorType values
        count (Or.inl (by simpa using hc))] at hsend
      rw [← Option.some.inj hsend] at hok
      exact absurd hok (by simp)
  obtain ⟨hconn, h1, h10⟩ := hguard
  rw [sendSensorData_of_guard p cs millisEnvelope millisSend sensorType values count hconn h1
    h10] at hsend
  have key : ∃ csv, ChronoSense.formatCSVData p cs sensorType values count = some csv ∧
      payloads out.trace = [csv] := by
    by_cases hge : cs.validation.toNat ≥ ValidationLevel.VALIDATE_BASIC.toNat
    · rw [if_pos hge] at hsend
      cases hv : ChronoSense.validateSensorData values count sensorType with
      | none => rw [hv] at hsend; exact absurd hsend (by simp)
      | some ok =>
        rw [hv] at hsend
        cases ok
        · simp only at hsend
          rw [← Option.some.inj hsend] at hok
          exact absurd hok (by simp)
        · exact sendSensorDataSend_payloads p cs millisEnvelope millisSend sensorType values
            count [.validateSensorData] rfl out hsend
    · rw [if_neg hge] at hsend
      exact sendSensorDataSend_payloads p cs millisEnvelope millisSend sensorType values
        count [] rfl out hsend
  obtain ⟨csv, hcsv, hpay⟩ := key
  have hlen := formatCSVData_length p cs sensorType values count csv hcsv
  obtain ⟨c, hc, _, _⟩ := calculateModSum_isSome p values count hlen
  refine ⟨c, hc, ?_⟩
  rw [hpay, ← Option.some.inj
    ((formatCSVData_eq p cs sensorType values count h1 hlen c hc).symm.trans hcsv)]

/-- The payload of sending `12.7f` with the checksum flag set is `12.7,2`. -/
theorem sendSensorData_payload_checksum_witness :
    ChronoSense.sendSensorData referencePlatform connectedSerial 5 7 "Temperature" [f12_7] 1
      = some sentTemperature ∧
    sentTemperature.value = true ∧
    ∃ checksum, ChronoSense.calculateModSum referencePlatform [f12_7] 1 = some checksum ∧
      payloads sentTemperature.trace
        = [String.intercalate ","
            (([f12_7].take (1 : Int).toNat).map referencePlatform.floatString1)
            ++ (if connectedSerial.checksumEnabled then "," ++ toString checksum else "")] :=
  ⟨by decide, by decide,
    sendSensorData_payload_checksum referencePlatform connectedSerial 5 7 "Temperature"
      [f12_7] 1 sentTemperature (by decide) (by decide)⟩

/-- C10 (as stated) fails. At validation level Checksum, and at level Full,
with the checksum flag cleared, a successful `sendSensorData` of the
temperature `20.0` transmits the payload `20.0`, which has no checksum field. -/
theorem sendSensorData_level_checksum_counterexample :
    connectedSerialNoChecksum.validation = .VALIDATE_CHECKSUM ∧
    connectedSerialNoChecksum.checksumEnabled = false ∧
    ChronoSense.sendSensorData referencePlatform connectedSerialNoChecksum 5 7 "Temperature"
        [.fin 20] 1
      = some {
          value := true
          state := { connectedSerialNoChecksum with lastTransmission := 7 }
          trace := [.validateSensorData, .formatCSVData, .transmitString "20.0",
            .serialPrintln "20.0"] } ∧
    connectedSerialFullNoChecksum.validation = .VALIDATE_FULL ∧
    connectedSerialFullNoChecksum.checksumEnabled = false ∧
    ChronoSense.sendSensorData referencePlatform connectedSerialFullNoChecksum 5 7
        "Temperature" [.fin 20] 1
      = some {
          value := true
          state := { connectedSerialFullNoChecksum with lastTransmission := 7 }
          trace := [.validateSensorData, .formatCSVData, .transmitString "20.0",
            .serialPrintln "20.0"] } := by
  decide

/-! ## Rejected readings, raw sending and adapter events -/

theorem callbacks_append (xs ys : List Event) :
    callbacks (xs ++ ys) = callbacks xs ++ callbacks ys := by
  unfold callbacks
  exact List.filter_append xs ys

theorem callbacks_debugLine (p : Platform) (text : String) : callbacks (debugLine p text) = [] := by
  unfold debugLine
  cases p.csDebug <;> rfl

theorem payloads_debugLine (p : Platform) (text : String) : payloads (debugLine p text) = [] := by
  unfold debugLine
  cases p.csDebug <;> rfl

/-- The transports call no callback. -/
theorem callbacks_transmitString (p : Platform) (cs : ChronoSense) (millis : Nat)
    (data : String) : callbacks (ChronoSense.transmitString p cs millis data) = [] := by
  unfold ChronoSense.transmitString
  cases cs.mode <;> cases p.esp32 <;> cases p.csDebug <;> cases cs.webSocket <;>
    cases cs.connected <;> cases cs.bluetooth <;> rfl

/-- The transports call neither `validateSensorData` nor `formatCSVData`. -/
theorem transmitString_no_helper_call (p : Platform) (cs : ChronoSense) (millis : Nat)
    (data : String) :
    Event.validateSensorData ∉ ChronoSense.transmitString p cs millis data ∧
      Event.formatCSVData ∉ ChronoSense.transmitString p cs millis data := by
  unfold ChronoSense.transmitString
  cases cs.mode <;> cases p.esp32 <;> cases p.csDebug <;> cases cs.webSocket <;>
    cases cs.connected <;> cases cs.bluetooth <;> simp

/-- C11. When `sendSensorData` rejects a reading because validation fails
(connected, count in `[1, 10]`, level at least Basic, `validateSensorData`
false), it returns `false` and leaves the instance as it was, so the
connection flag and `lastTransmission` are unchanged; its trace is the call of
`validateSensorData` and, in a build with `CS_DEBUG`, one debug line: no
callback is called (neither `onError` nor `onDataSent`) and nothing is handed
to `transmitString` or to a transport. -/
theorem sendSensorData_validation_rejected (p : Platform) (cs : ChronoSense)
    (millisEnvelope millisSend : Nat) (sensorType : String) (values : List CFloat)
    (count : Int) (hconn : cs.connected = true) (h1 : 1 ≤ count) (h10 : count ≤ 10)
    (hlevel : cs.validation ≠ .VALIDATE_NONE)
    (hrej : ChronoSense.validateSensorData values count sensorType = some false) :
    ∃ out, ChronoSense.sendSensorData p cs millisEnvelope millisSend sensorType values count
        = some out ∧
      out.value = false ∧ out.state = cs ∧
      out.state.connected = cs.connected ∧
      out.state.lastTransmission = cs.lastTransmission ∧
      out.trace = [.validateSensorData]
        ++ debugLine p ("Data validation failed for " ++ sensorType) ∧
      callbacks out.trace = [] ∧ payloads out.trace = [] ∧
      out.trace.any Event.isTransmission = false := by
  have hge : cs.validation.toNat ≥ ValidationLevel.VALIDATE_BASIC.toNat := by
    cases hv : cs.validation
    · exact absurd hv hlevel
    all_goals decide
  refine ⟨⟨false, cs, [.validateSensorData]
        ++ debugLine p ("Data validation failed for " ++ sensorType)⟩, ?_, rfl, rfl, rfl,
      rfl, rfl, ?_, ?_, ?_⟩
  · rw [sendSensorData_of_guard p cs millisEnvelope millisSend sensorType values count hconn
      h1 h10, if_pos hge, hrej]
    rfl
  · unfold debugLine
    cases p.csDebug <;> rfl
  · unfold debugLine
    cases p.csDebug <;> rfl
  · unfold debugLine
    cases p.csDebug <;> rfl

/-- The temperature `500` is rejected at the constructor's level Checksum. -/
theorem sendSensorData_validation_rejected_witness :
    connectedSerial.connected = true ∧ (1 : Int) ≤ 1 ∧ (1 : Int) ≤ 10 ∧
    connectedSerial.validation ≠ .VALIDATE_NONE ∧
    ChronoSense.validateSensorData [.fin 500] 1 "Temperature" = some false ∧
    ∃ out, ChronoSense.sendSensorData referencePlatform connectedSerial 5 7 "Temperature"
        [.fin 500] 1 = some out ∧
      out.value = false ∧ out.state = connectedSerial ∧
      out.state.connected = connectedSerial.connected ∧
      out.state.lastTransmission = connectedSerial.lastTransmission ∧
      out.trace = [.validateSensorData]
        ++ debugLine referencePlatform ("Data validation failed for " ++ "Temperature") ∧
      callbacks out.trace = [] ∧ payloads out.trace = [] ∧
      out.trace.any Event.isTransmission = false :=
  ⟨by decide, by decide, by decide, by decide, by decide,
    sendSensorData_validation_rejected referencePlatform connectedSerial 5 7 "Temperature"
      [.fin 500] 1 (by decide) (by decide) (by decide) (by decide) (by decide)⟩

/-- C12. On a connected instance `sendRawCSV(t)` hands exactly `t` to
`transmitString`, with no call of `validateSensorData` or `formatCSVData` and
nothing appended whatever `checksumEnabled` and the validation level are,
records the send time, calls `onDataSent` (when registered) with exactly `t`
and returns `true`; in USB serial mode the line printed is `t`.  On a
disconnected instance it returns `false` with an empty trace and the instance
unchanged. -/
theorem sendRawCSV_passthrough (p : Platform) (cs : ChronoSense)
    (millisEnvelope millisSend : Nat) (t : String) :
    (cs.connected = true →
      (ChronoSense.sendRawCSV p cs millisEnvelope millisSend t).value = true ∧
      (ChronoSense.sendRawCSV p cs millisEnvelope millisSend t).state
        = { cs with lastTransmission := millisSend } ∧
      (ChronoSense.sendRawCSV p cs millisEnvelope millisSend t).trace
        = [.transmitString t] ++ ChronoSense.transmitString p cs millisEnvelope t
          ++ (if cs.onDataSentCallback then [.onDataSent t] else []) ∧
      payloads (ChronoSense.sendRawCSV p cs millisEnvelope millisSend t).trace = [t] ∧
      callbacks (ChronoSense.sendRawCSV p cs millisEnvelope millisSend t).trace
        = (if cs.onDataSentCallback then [.onDataSent t] else []) ∧
      Event.validateSensorData ∉ (ChronoSense.sendRawCSV p cs millisEnvelope millisSend t).trace ∧
      Event.formatCSVData ∉ (ChronoSense.sendRawCSV p cs millisEnvelope millisSend t).trace ∧
      (cs.mode = .CS_USB_SERIAL →
        (ChronoSense.sendRawCSV p cs millisEnvelope millisSend t).trace
          = [.transmitString t, .serialPrintln t]
            ++ (if cs.onDataSentCallback then [.onDataSent t] else []))) ∧
    (cs.connected = false →
      ChronoSense.sendRawCSV p cs millisEnvelope millisSend t
        = { value := false, state := cs, trace := [] }) := by
  constructor
  · intro hconn
    have hout : ChronoSense.sendRawCSV p cs millisEnvelope millisSend t
        = { value := true
            state := { cs with lastTransmission := millisSend }
            trace := [.transmitString t] ++ ChronoSense.transmitString p cs millisEnvelope t
              ++ (if cs.onDataSentCallback then [.onDataSent t] else []) } := by
      unfold ChronoSense.sendRawCSV
      rw [if_neg (by simp [hconn])]
    rw [hout]
    obtain ⟨hnv, hnf⟩ := transmitString_no_helper_call p cs millisEnvelope t
    refine ⟨rfl, rfl, rfl, ?_, ?_, ?_, ?_, ?_⟩
    · simp only [payloads_append, payloads_transmitString]
      cases cs.onDataSentCallback <;> rfl
    · simp only [callbacks_append, callbacks_transmitString]
      cases cs.onDataSentCallback <;> rfl
    · simp only [List.mem_append, not_or]
      refine ⟨⟨by simp, hnv⟩, ?_⟩
      cases cs.onDataSentCallback <;> simp
    · simp only [List.mem_append, not_or]
      refine ⟨⟨by simp, hnf⟩, ?_⟩
      cases cs.onDataSentCallback <;> simp
    · intro hmode
      simp only [ChronoSense.transmitString, hmode]
      rfl
  · intro hconn
    unfold ChronoSense.sendRawCSV
    rw [if_pos (by simp [hconn])]

/-- Raw text sent over the connected USB serial instance, and over a fresh one. -/
theorem sendRawCSV_passthrough_witness :
    connectedSerial.connected = true ∧
    (ChronoSense.sendRawCSV referencePlatform connectedSerial 5 7 "a,b;c").value = true ∧
    payloads (ChronoSense.sendRawCSV referencePlatform connectedSerial 5 7 "a,b;c").trace
      = ["a,b;c"] ∧
    (ChronoSense.new .CS_USB_SERIAL).connected = false ∧
    ChronoSense.sendRawCSV referencePlatform (ChronoSense.new .CS_USB_SERIAL) 5 7 "a,b;c"
      = { value := false, state := ChronoSense.new .CS_USB_SERIAL, trace := [] } :=
  ⟨by decide,
    ((sendRawCSV_passthrough referencePlatform connectedSerial 5 7 "a,b;c").1 (by decide)).1,
    ((sendRawCSV_passthrough referencePlatform connectedSerial 5 7 "a,b;c").1
      (by decide)).2.2.2.1,
    by decide,
    (sendRawCSV_passthrough referencePlatform (ChronoSense.new .CS_USB_SERIAL) 5 7 "a,b;c").2
      (by decide)⟩

/-- C13 (as amended). The adapter event handler: from every prior state whose
WebSocket client exists (`webSocket` is not `nullptr`), a Connected event sets
the connection flag and calls `onConnect` (when registered) once and no other
callback; from every prior state, a Disconnected event clears the flag and
calls `onDisconnect` once and no other callback, and an Error event clears the
flag and calls `onError` once and no other callback; no other member changes.
Hence along the events Connected, Disconnected, Error on an instance whose
client exists the flag is `true`, `false`, `false`, with one matching callback
per event. -/
theorem handleWebSocketEvent_transitions (p : Platform) (cs : ChronoSense)
    (payload : String) :
    (cs.webSocket = true →
      ∃ out, ChronoSense.handleWebSocketEvent p cs .WStype_CONNECTED payload = some out ∧
        out.state = { cs with connected := true } ∧
        callbacks out.trace = (if cs.onConnectCallback then [.onConnect] else [])) ∧
    (∃ out, ChronoSense.handleWebSocketEvent p cs .WStype_DISCONNECTED payload = some out ∧
      out.state = { cs with connected := false } ∧
      callbacks out.trace = (if cs.onDisconnectCallback then [.onDisconnect] else [])) ∧
    (∃ out, ChronoSense.handleWebSocketEvent p cs .WStype_ERROR payload = some out ∧
      out.state = { cs with connected := false } ∧
      callbacks out.trace
        = (if cs.onErrorCallback then [.onError "WebSocket error"] else [])) ∧
    (cs.webSocket = true →
      ∃ first second third,
        ChronoSense.handleWebSocketEvent p cs .WStype_CONNECTED payload = some first ∧
        ChronoSense.handleWebSocketEvent p first.state .WStype_DISCONNECTED payload
          = some second ∧
        ChronoSense.handleWebSocketEvent p second.state .WStype_ERROR payload = some third ∧
        first.state.connected = true ∧ second.state.connected = false ∧
        third.state.connected = false ∧
        callbacks first.trace = (if cs.onConnectCallback then [.onConnect] else []) ∧
        callbacks second.trace = (if cs.onDisconnectCallback then [.onDisconnect] else []) ∧
        callbacks third.trace
          = (if cs.onErrorCallback then [.onError "WebSocket error"] else [])) := by
  have hc : callbacks (debugLine p "WebSocket Connected"
        ++ [.webSocketSendTXT (.deviceInfo cs.deviceName cs.radioChannel
            ChronoSense.getVersion)]
        ++ (if cs.onConnectCallback then [.onConnect] else []))
      = (if cs.onConnectCallback then [.onConnect] else []) := by
    simp only [callbacks_append, callbacks_debugLine]
    by_cases h : cs.onConnectCallback = true <;> simp [h, callbacks, Event.isCallback]
  have hd : callbacks (debugLine p "WebSocket Disconnected"
        ++ (if cs.onDisconnectCallback then [.onDisconnect] else []))
      = (if cs.onDisconnectCallback then [.onDisconnect] else []) := by
    simp only [callbacks_append, callbacks_debugLine]
    by_cases h : cs.onDisconnectCallback = true <;> simp [h, callbacks, Event.isCallback]
  have he : callbacks (debugLine p "WebSocket Error"
        ++ (if cs.onErrorCallback then [.onError "WebSocket error"] else []))
      = (if cs.onErrorCallback then [.onError "WebSocket error"] else []) := by
    simp only [callbacks_append, callbacks_debugLine]
    by_cases h : cs.onErrorCallback = true <;> simp [h, callbacks, Event.isCallback]
  have hconnected : cs.webSocket = true →
      ChronoSense.handleWebSocketEvent p cs .WStype_CONNECTED payload
        = some {
            value := ()
            state := { cs with connected := true }
            trace := debugLine p "WebSocket Connected"
              ++ [.webSocketSendTXT (.deviceInfo cs.deviceName cs.radioChannel
                  ChronoSense.getVersion)]
              ++ (if cs.onConnectCallback then [.onConnect] else []) } := by
    intro hws
    simp only [ChronoSense.handleWebSocketEvent, hws, if_true]
  refine ⟨fun hws => ⟨_, hconnected hws, rfl, hc⟩, ⟨_, rfl, rfl, hd⟩, ⟨_, rfl, rfl, he⟩, ?_⟩
  intro hws
  exact ⟨_, _, _, hconnected hws, rfl, rfl, rfl, rfl, rfl, hc, hd, he⟩

/-- The three events on an instance whose client exists and with all callbacks
registered. -/
theorem handleWebSocketEvent_transitions_witness :
    webSocketListening.webSocket = true ∧
    (∃ out, ChronoSense.handleWebSocketEvent referencePlatform webSocketListening
        .WStype_CONNECTED "" = some out ∧
      out.state = { webSocketListening with connected := true } ∧
      callbacks out.trace
        = (if webSocketListening.onConnectCallback then [.onConnect] else [])) ∧
    ChronoSense.handleWebSocketEvent referencePlatform webSocketListening .WStype_CONNECTED ""
      = some {
          value := ()
          state := { webSocketListening with connected := true }
          trace := [.webSocketSendTXT (.deviceInfo "Arduino-Sensor" 144 "1.0.0"),
            .onConnect] } ∧
    (ChronoSense.dispatchEvents referencePlatform webSocketListening
        [(.WStype_CONNECTED, ""), (.WStype_DISCONNECTED, ""), (.WStype_ERROR, "")]).map
        (fun result => (result.1.connected, callbacks result.2))
      = some (false, [.onConnect, .onDisconnect, .onError "WebSocket error"]) :=
  ⟨by decide,
    (handleWebSocketEvent_transitions referencePlatform webSocketListening "").1 (by decide),
    by decide, by decide⟩

/-- C13 (as stated) fails. On an instance whose `webSocket` is `nullptr` (the
instance constructed last receives, through the static `instance` pointer, the
events of an earlier instance's client) a Connected event makes the handler
call `webSocket->sendTXT` on the null pointer: the call is undefined, no
defined state follows and `onConnect` is not reached. -/
theorem handleWebSocketEvent_null_client_counterexample :
    webSocketNoHost.webSocket = false ∧
    webSocketNoHost.onConnectCallback = true ∧
    ChronoSense.handleWebSocketEvent referencePlatform webSocketNoHost .WStype_CONNECTED ""
      = none ∧
    ChronoSense.dispatchEvents referencePlatform webSocketNoHost
        [(.WStype_CONNECTED, ""), (.WStype_DISCONNECTED, ""), (.WStype_ERROR, "")]
      = none := by
  decide

/-! ## Connecting -/

/-- C14 (the code at the failing input). On an ESP32 build, `begin` on an
instance in TCP-over-WiFi mode with WiFi credentials set returns `true` and
sets the connection flag as soon as the WiFi link associates; the radio mode
and a WiFi link that never associates return `false` with the flag clear. -/
theorem begin_tcp_reports_success :
    tcpConfigured.mode = .CS_WIFI_TCP ∧ referencePlatform.esp32 = true ∧
    ChronoSense.begin referencePlatform wifiUp tcpConfigured "Arduino-Sensor"
      = some {
          value := true
          state := tcpConnected
          trace := [.wifiBegin "lab" "secret", .wifiSetHostname "Arduino-Sensor"] } ∧
    tcpConnected.connected = true ∧
    (ChronoSense.begin referencePlatform wifiDown tcpConfigured "Arduino-Sensor").map
      (fun out => (out.value, out.state.connected)) = some (false, false) ∧
    (ChronoSense.begin referencePlatform wifiUp (ChronoSense.new .CS_RADIO_NRF24)
      "Arduino-Sensor").map (fun out => (out.value, out.state.connected))
      = some (false, false) := by
  decide

/-- C15 (the code at the failing input). On the TCP-mode instance that `begin`
left connected, `sendSensorData` and `sendRawCSV` return `true` while
`transmitString` makes no call to any transport; with an `onDataSent` callback
registered the callback is called with the payload that was not transmitted. -/
theorem send_tcp_reports_success :
    (ChronoSense.begin referencePlatform wifiUp tcpConfigured "Arduino-Sensor").map
      (fun out => out.state) = some tcpConnected ∧
    ChronoSense.transmitString referencePlatform tcpConnected 5 "20.0,0" = [] ∧
    ChronoSense.sendSensorData referencePlatform tcpConnected 5 7 "Temperature" [.fin 20] 1
      = some {
          value := true
          state := { tcpConnected with lastTransmission := 7 }
          trace := [.validateSensorData, .formatCSVData, .transmitString "20.0,0"] } ∧
    ChronoSense.sendRawCSV referencePlatform tcpConnected 5 7 "20.0,0"
      = { value := true
          state := { tcpConnected with lastTransmission := 7 }
          trace := [.transmitString "20.0,0"] } ∧
    (ChronoSense.sendSensorData referencePlatform tcpConnectedListening 5 7 "Temperature"
      [.fin 20] 1).map (fun out => (out.value, out.trace))
      = some (true, [.validateSensorData, .formatCSVData, .transmitString "20.0,0",
          .onDataSent "20.0,0"]) := by
  decide

/-! ## The status query -/

/-- C16 (as amended). In every state, hence in every reachable one: in
WebSocket, TCP and radio mode on every build, and in Bluetooth mode on a build
without `ESP32`, if `isConnected()` returns `true` then the connection flag is
`true`. -/
theorem isConnected_implies_connected (p : Platform) (cs : ChronoSense) (links : LinkStatus)
    (hmode : cs.mode ≠ .CS_USB_SERIAL)
    (hbt : ¬ (p.esp32 = true ∧ cs.mode = .CS_BLUETOOTH))
    (h : ChronoSense.isConnected p cs links = true) :
    cs.connected = true := by
  unfold ChronoSense.isConnected at h
  cases hm : cs.mode <;> rw [hm] at h <;> simp only at h
  · exact absurd hm hmode
  · cases he : p.esp32 <;> rw [he] at h <;> simp at h
    · exact h
    · exact h.2
  · cases he : p.esp32 <;> rw [he] at h <;> simp at h
    · exact h
    · exact h.2
  · cases he : p.esp32 <;> rw [he] at h <;> simp at h
    · exact h
    · exact absurd ⟨he, hm⟩ hbt
  · exact h

/-- The TCP-mode instance with the WiFi link associated. -/
theorem isConnected_implies_connected_witness :
    tcpConnected.mode ≠ .CS_USB_SERIAL ∧
    ¬ (referencePlatform.esp32 = true ∧ tcpConnected.mode = .CS_BLUETOOTH) ∧
    ChronoSense.isConnected referencePlatform tcpConnected wifiLinkUp = true ∧
    tcpConnected.connected = true :=
  ⟨by decide, by decide, by decide,
    isConnected_implies_connected referencePlatform tcpConnected wifiLinkUp (by decide)
      (by decide) (by decide)⟩

/-- C16 (as stated) fails. On a freshly constructed instance in USB serial
mode, with the serial line present, `isConnected()` returns `true` while the
connection flag is `false` and `sendSensorData` refuses to send. -/
theorem isConnected_usb_counterexample :
    ChronoSense.isConnected referencePlatform (ChronoSense.new .CS_USB_SERIAL) serialLineUp
      = true ∧
    (ChronoSense.new .CS_USB_SERIAL).connected = false ∧
    (ChronoSense.sendSensorData referencePlatform (ChronoSense.new .CS_USB_SERIAL) 5 7
      "Temperature" [.fin 20] 1).map (fun out => out.value) = some false := by
  decide

/-! ## Missing transport parameters -/

theorem onConnect_not_mem_debugLine (p : Platform) (text : String) :
    Event.onConnect ∉ debugLine p text := by
  unfold debugLine
  cases p.csDebug <;> simp

theorem debugLine_all_debug (p : Platform) (text : String) :
    ∀ e ∈ debugLine p text, ∃ t, e = Event.debugPrintln t := by
  intro e he
  unfold debugLine at he
  cases hd : p.csDebug <;> rw [hd] at he <;> simp at he
  exact ⟨text, he⟩

theorem onConnect_not_mem_connectWiFiLoop (p : Platform) (wifiStatus : Nat → Bool) :
    ∀ (n k : Nat), Event.onConnect ∉ (ChronoSense.connectWiFiLoop p wifiStatus n k).2 := by
  intro n
  induction n with
  | zero => intro k; simp [ChronoSense.connectWiFiLoop]
  | succ n ih =>
    intro k
    rw [ChronoSense.connectWiFiLoop]
    cases wifiStatus k
    · have := ih (k + 1)
      cases p.csDebug <;> simpa using this
    · simp

/-- C17. In WebSocket or TCP mode with an empty WiFi SSID, `begin` returns
`false`, changes nothing but the device name (so a clear connection flag stays
clear) and its trace holds debug lines only: no connection is attempted and
no callback is called.  In WebSocket mode with an empty server host, on an
instance whose connection flag is clear, `begin` returns `false`, the flag
stays clear and `onConnect` is not called. -/
theorem begin_missing_parameters (p : Platform) (hw : Hardware) (cs : ChronoSense)
    (deviceName : String) :
    ((cs.mode = .CS_WIFI_WEBSOCKET ∨ cs.mode = .CS_WIFI_TCP) → cs.wifiSSID = "" →
      ∃ out, ChronoSense.begin p hw cs deviceName = some out ∧
        out.value = false ∧
        out.state = { cs with deviceName := deviceName } ∧
        out.state.connected = cs.connected ∧
        (∀ e ∈ out.trace, ∃ t, e = Event.debugPrintln t) ∧
        Event.onConnect ∉ out.trace) ∧
    (cs.mode = .CS_WIFI_WEBSOCKET → cs.serverHost = "" → cs.connected = false →
      ∃ out, ChronoSense.begin p hw cs deviceName = some out ∧
        out.value = false ∧ out.state.connected = false ∧
        Event.onConnect ∉ out.trace) := by
  have hintro : ∀ e ∈ debugLine p ("ChronoSense: Initializing " ++ deviceName)
      ++ debugLine p ("Mode: " ++ toString cs.mode.toNat)
      ++ debugLine p ("Channel: " ++ toString cs.radioChannel),
      ∃ t, e = Event.debugPrintln t := by
    intro e he
    rcases List.mem_append.mp he with he | he
    · rcases List.mem_append.mp he with he | he
      · exact debugLine_all_debug _ _ e he
      · exact debugLine_all_debug _ _ e he
    · exact debugLine_all_debug _ _ e he
  constructor
  · intro hmode hssid
    have hlen : (cs.wifiSSID.length == 0) = true := by rw [hssid]; rfl
    have hall : ∀ text, ∀ e ∈ (debugLine p ("ChronoSense: Initializing " ++ deviceName)
        ++ debugLine p ("Mode: " ++ toString cs.mode.toNat)
        ++ debugLine p ("Channel: " ++ toString cs.radioChannel)) ++ debugLine p text,
        ∃ t, e = Event.debugPrintln t := by
      intro text e he
      rcases List.mem_append.mp he with he | he
      · exact hintro e he
      · exact debugLine_all_debug _ _ e he
    have hno : ∀ text, Event.onConnect ∉ (debugLine p ("ChronoSense: Initializing " ++ deviceName)
        ++ debugLine p ("Mode: " ++ toString cs.mode.toNat)
        ++ debugLine p ("Channel: " ++ toString cs.radioChannel)) ++ debugLine p text := by
      intro text hmem
      obtain ⟨t, ht⟩ := hall text _ hmem
      exact Event.noConfusion ht
    cases he : p.esp32
    · refine ⟨⟨false, { cs with deviceName := deviceName }, _⟩, ?_, rfl, rfl, rfl,
        hall "Error: WiFi not supported on this board",
        hno "Error: WiFi not supported on this board"⟩
      unfold ChronoSense.begin
      rcases hmode with hm | hm <;> simp [hm, he]
    · refine ⟨⟨false, { cs with deviceName := deviceName }, _⟩, ?_, rfl, rfl, rfl,
        hall "Error: WiFi credentials not set", hno "Error: WiFi credentials not set"⟩
      unfold ChronoSense.begin
      rcases hmode with hm | hm <;> simp [hm, he, hlen]
  · intro hmode hhost hconn
    have hhostlen : (cs.serverHost.length == 0) = true := by rw [hhost]; rfl
    unfold ChronoSense.begin
    simp only [hmode]
    cases he : p.esp32
    · refine ⟨_, rfl, rfl, hconn, ?_⟩
      simp [onConnect_not_mem_debugLine]
    · simp only [if_true]
      by_cases hssid : (cs.wifiSSID.length == 0) = true
      · rw [if_pos hssid]
        refine ⟨_, rfl, rfl, hconn, ?_⟩
        simp [onConnect_not_mem_debugLine]
      · rw [if_neg hssid]
        unfold ChronoSense.connectWiFi
        simp only [he, if_true, hmode]
        by_cases hup : hw.wifiStatus (ChronoSense.connectWiFiLoop p hw.wifiStatus 20 0).1 = true
        · rw [if_pos hup]
          unfold ChronoSense.connectWebSocket
          simp only [he, if_true, hhostlen]
          refine ⟨_, rfl, rfl, hconn, ?_⟩
          simp [onConnect_not_mem_debugLine, onConnect_not_mem_connectWiFiLoop]
        · rw [if_neg hup]
          refine ⟨_, rfl, rfl, rfl, ?_⟩
          cases cs.onErrorCallback <;>
            simp [onConnect_not_mem_debugLine, onConnect_not_mem_connectWiFiLoop]

/-! ## The checksum is a digit and its running total does not overflow -/

/-- The digit the integer loops add for an `int` other than `INT_MIN`. -/
theorem digit_of_int (x : Int) (h1 : INT_MIN < x) (h2 : x ≤ INT_MAX) :
    (intAbs x).tmod 10 = |x| % 10 := by
  rw [intAbs_of_gt_min x h1 h2]
  exact Int.tmod_eq_emod (abs_nonneg _) (by norm_num)

theorem intDigits_sum_nonneg (values : List Int) : 0 ≤ (intDigits values).sum := by
  induction values with
  | nil => simp [intDigits]
  | cons v vs ih =>
    have h1 : 0 ≤ |v| % 10 := Int.emod_nonneg _ (by norm_num)
    simp only [intDigits, List.map_cons, List.sum_cons] at ih ⊢
    omega

/-- The loop of `calculateModSum(int[], int)` on ints other than `INT_MIN`
computes the running total plus the digits of the next `n` values. -/
theorem calculateModSumIntLoop_eq (values : List Int) :
    ∀ (n i : Nat) (sum : Int), i + n ≤ values.length →
      (∀ x ∈ (values.drop i).take n, INT_MIN < x ∧ x ≤ INT_MAX) → 0 ≤ sum →
      sum + 9 * (n : Int) ≤ INT_MAX →
      ChronoSense.calculateModSumIntLoop values n i sum
        = some (sum + (intDigits ((values.drop i).take n)).sum) := by
  intro n
  induction n with
  | zero =>
    intro i sum _ _ _ _
    simp [ChronoSense.calculateModSumIntLoop, intDigits]
  | succ n ih =>
    intro i sum hlen hv h0 hmax
    have hi : i < values.length := by omega
    rw [List.drop_eq_getElem_cons hi, List.take_succ_cons] at hv ⊢
    have hx := hv _ (List.mem_cons_self _ _)
    have hd := digit_of_int values[i] hx.1 hx.2
    have h1 : 0 ≤ |values[i]| % 10 := Int.emod_nonneg _ (by norm_num)
    have h2 : |values[i]| % 10 < 10 := Int.emod_lt_of_pos _ (by norm_num)
    have hw : wrapInt (sum + |values[i]| % 10) = sum + |values[i]| % 10 := by
      apply wrapInt_of_inRange
      · unfold INT_MIN; omega
      · push_cast at hmax; omega
    rw [ChronoSense.calculateModSumIntLoop, List.getElem?_eq_getElem hi]
    simp only
    rw [hd, hw, ih (i + 1) _ (by omega) (fun v hm => hv v (List.mem_cons_of_mem _ hm))
      (by omega) (by push_cast at hmax; omega)]
    simp only [intDigits, List.map_cons, List.sum_cons]
    congr 1
    ring

theorem calculateChecksumIntLoop_eq_calculateModSumIntLoop (values : List Int) :
    ∀ (n i : Nat) (sum : Int),
      ChronoSenseUtils.calculateChecksumIntLoop values n i sum
        = ChronoSense.calculateModSumIntLoop values n i sum := by
  intro n
  induction n with
  | zero => intro i sum; rfl
  | succ n ih =>
    intro i sum
    rw [ChronoSenseUtils.calculateChecksumIntLoop, ChronoSense.calculateModSumIntLoop]
    cases values[i]? with
    | none => rfl
    | some v => exact ih _ _

/-- The exact totals of the float loop on floats in range stay between `0`
and the starting total plus nine per iteration. -/
theorem calculateModSumTotals_bounds (p : Platform) (values : List CFloat) :
    ∀ (n i : Nat) (sum : Int), i + n ≤ values.length →
      (∀ v ∈ (values.drop i).take n, v.TruncatesToInt) → 0 ≤ sum →
      sum + 9 * (n : Int) ≤ INT_MAX →
      ∀ s ∈ ChronoSense.calculateModSumTotals p values n i sum,
        0 ≤ s ∧ s ≤ sum + 9 * (n : Int) := by
  intro n
  induction n with
  | zero =>
    intro i sum _ _ _ _ s hs
    simp [ChronoSense.calculateModSumTotals] at hs
  | succ n ih =>
    intro i sum hlen hv h0 hmax s hs
    have hi : i < values.length := by omega
    rw [List.drop_eq_getElem_cons hi, List.take_succ_cons] at hv
    have hd := digit_of_truncatesToInt p values[i] (hv _ (List.mem_cons_self _ _))
    have h1 : 0 ≤ |values[i].trunc| % 10 := Int.emod_nonneg _ (by norm_num)
    have h2 : |values[i].trunc| % 10 < 10 := Int.emod_lt_of_pos _ (by norm_num)
    have hw : wrapInt (sum + |values[i].trunc| % 10) = sum + |values[i].trunc| % 10 := by
      apply wrapInt_of_inRange
      · unfold INT_MIN; omega
      · push_cast at hmax; omega
    rw [ChronoSense.calculateModSumTotals, List.getElem?_eq_getElem hi] at hs
    simp only [hd, hw, List.mem_cons] at hs
    push_cast at hmax ⊢
    rcases hs with rfl | hs
    · omega
    · have := ih (i + 1) _ (by omega) (fun v hm => hv v (List.mem_cons_of_mem _ hm))
        (by omega) (by omega) s hs
      omega

/-- The exact totals of the integer loop on ints other than `INT_MIN`. -/
theorem calculateModSumIntTotals_bounds (values : List Int) :
    ∀ (n i : Nat) (sum : Int), i + n ≤ values.length →
      (∀ x ∈ (values.drop i).take n, INT_MIN < x ∧ x ≤ INT_MAX) → 0 ≤ sum →
      sum + 9 * (n : Int) ≤ INT_MAX →
      ∀ s ∈ ChronoSense.calculateModSumIntTotals values n i sum,
        0 ≤ s ∧ s ≤ sum + 9 * (n : Int) := by
  intro n
  induction n with
  | zero =>
    intro i sum _ _ _ _ s hs
    simp [ChronoSense.calculateModSumIntTotals] at hs
  | succ n ih =>
    intro i sum hlen hv h0 hmax s hs
    have hi : i < values.length := by omega
    rw [List.drop_eq_getElem_cons hi, List.take_succ_cons] at hv
    have hx := hv _ (List.mem_cons_self _ _)
    have hd := digit_of_int values[i] hx.1 hx.2
    have h1 : 0 ≤ |values[i]| % 10 := Int.emod_nonneg _ (by norm_num)
    have h2 : |values[i]| % 10 < 10 := Int.emod_lt_of_pos _ (by norm_num)
    have hw : wrapInt (sum + |values[i]| % 10) = sum + |values[i]| % 10 := by
      apply wrapInt_of_inRange
      · unfold INT_MIN; omega
      · push_cast at hmax; omega
    rw [ChronoSense.calculateModSumIntTotals, List.getElem?_eq_getElem hi] at hs
    simp only [hd, hw, List.mem_cons] at hs
    push_cast at hmax ⊢
    rcases hs with rfl | hs
    · omega
    · have := ih (i + 1) _ (by omega) (fun v hm => hv v (List.mem_cons_of_mem _ hm))
        (by omega) (by omega) s hs
      omega

theorem calculateChecksumTotals_eq (p : Platform) (values : List CFloat) :
    ∀ (n i : Nat) (sum : Int),
      ChronoSenseUtils.calculateChecksumTotals p values n i sum
        = ChronoSense.calculateModSumTotals p values n i sum := by
  intro n
  induction n with
  | zero => intro i sum; rfl
  | succ n ih =>
    intro i sum
    rw [ChronoSenseUtils.calculateChecksumTotals, ChronoSense.calculateModSumTotals]
    cases values[i]? with
    | none => rfl
    | some v => simp only [ih]

theorem calculateChecksumIntTotals_eq (values : List Int) :
    ∀ (n i : Nat) (sum : Int),
      ChronoSenseUtils.calculateChecksumIntTotals values n i sum
        = ChronoSense.calculateModSumIntTotals values n i sum := by
  intro n
  induction n with
  | zero => intro i sum; rfl
  | succ n ih =>
    intro i sum
    rw [ChronoSenseUtils.calculateChecksumIntTotals, ChronoSense.calculateModSumIntTotals]
    cases values[i]? with
    | none => rfl
    | some v => simp only [ih]

/-- C18. For `count ≤ 10` and at least `count` values, each float truncating
to an `int` other than `INT_MIN` (each `int` of the integer overloads being
other than `INT_MIN`), the checksums returned by `calculateModSum` and
`ChronoSenseUtils::calculateChecksum`, float and `int` overloads, are integers
between `0` and `9`, and every value the loops compute for `sum` lies within
the range of `int`, so no running total overflows. -/
theorem checksum_is_digit (p : Platform) (values : List CFloat) (ints : List Int)
    (count : Int) (h10 : count ≤ 10)
    (hlen : count.toNat ≤ values.length)
    (hv : ∀ v ∈ values.take count.toNat, v.TruncatesToInt)
    (hlenInt : count.toNat ≤ ints.length)
    (hx : ∀ x ∈ ints.take count.toNat, INT_MIN < x ∧ x ≤ INT_MAX) :
    (∃ c, ChronoSense.calculateModSum p values count = some c ∧
      ChronoSenseUtils.calculateChecksum p values count = some c ∧ 0 ≤ c ∧ c ≤ 9) ∧
    (∃ c, ChronoSense.calculateModSumInt ints count = some c ∧
      ChronoSenseUtils.calculateChecksumInt ints count = some c ∧ 0 ≤ c ∧ c ≤ 9) ∧
    (∀ s ∈ ChronoSense.calculateModSumTotals p values count.toNat 0 0,
      INT_MIN ≤ s ∧ s ≤ INT_MAX) ∧
    (∀ s ∈ ChronoSenseUtils.calculateChecksumTotals p values count.toNat 0 0,
      INT_MIN ≤ s ∧ s ≤ INT_MAX) ∧
    (∀ s ∈ ChronoSense.calculateModSumIntTotals ints count.toNat 0 0,
      INT_MIN ≤ s ∧ s ≤ INT_MAX) ∧
    (∀ s ∈ ChronoSenseUtils.calculateChecksumIntTotals ints count.toNat 0 0,
      INT_MIN ≤ s ∧ s ≤ INT_MAX) := by
  have hn : (count.toNat : Int) ≤ 10 := by omega
  have hmax : (0 : Int) + 9 * (count.toNat : Int) ≤ INT_MAX := by unfold INT_MAX; omega
  have hfloat : ∀ s ∈ ChronoSense.calculateModSumTotals p values count.toNat 0 0,
      INT_MIN ≤ s ∧ s ≤ INT_MAX := by
    intro s hs
    have := calculateModSumTotals_bounds p values count.toNat 0 0 (by omega)
      (by simpa using hv) (le_refl _) hmax s hs
    unfold INT_MIN INT_MAX
    omega
  have hint : ∀ s ∈ ChronoSense.calculateModSumIntTotals ints count.toNat 0 0,
      INT_MIN ≤ s ∧ s ≤ INT_MAX := by
    intro s hs
    have := calculateModSumIntTotals_bounds ints count.toNat 0 0 (by omega)
      (by simpa using hx) (le_refl _) hmax s hs
    unfold INT_MIN INT_MAX
    omega
  refine ⟨?_, ?_, hfloat, ?_, hint, ?_⟩
  · refine ⟨_, calculateModSum_eq_formula p values count h10 hlen hv, ?_, ?_, ?_⟩
    · rw [calculateChecksum_eq_calculateModSum]
      exact calculateModSum_eq_formula p values count h10 hlen hv
    · exact Int.emod_nonneg _ (by norm_num)
    · have := Int.emod_lt_of_pos
        ((List.map (fun v => |CFloat.trunc v| % 10) (values.take count.toNat)).sum)
        (show (0 : Int) < 10 by norm_num)
      unfold checksumFormula
      omega
  · have hloop := calculateModSumIntLoop_eq ints count.toNat 0 0 (by omega)
      (by simpa using hx) (le_refl _) hmax
    have hnonneg := intDigits_sum_nonneg (ints.take count.toNat)
    have hres : ChronoSense.calculateModSumInt ints count
        = some ((intDigits (ints.take count.toNat)).sum % 10) := by
      unfold ChronoSense.calculateModSumInt
      rw [hloop]
      simp only [Option.map_some', List.drop_zero, zero_add]
      congr 1
      exact Int.tmod_eq_emod hnonneg (by norm_num)
    refine ⟨_, hres, ?_, ?_, ?_⟩
    · unfold ChronoSenseUtils.calculateChecksumInt
      rw [calculateChecksumIntLoop_eq_calculateModSumIntLoop]
      exact hres
    · exact Int.emod_nonneg _ (by norm_num)
    · have := Int.emod_lt_of_pos (intDigits (ints.take count.toNat)).sum
        (show (0 : Int) < 10 by norm_num)
      omega
  · intro s hs
    rw [calculateChecksumTotals_eq] at hs
    exact hfloat s hs
  · intro s hs
    rw [calculateChecksumIntTotals_eq] at hs
    exact hint s hs

/-- Ten values each adding the digit `9`: the totals reach `90` and the
checksum is `0`. -/
theorem checksum_is_digit_witness :
    (10 : Int) ≤ 10 ∧
    (10 : Int).toNat ≤ (List.replicate 10 (CFloat.fin 19)).length ∧
    (∀ v ∈ (List.replicate 10 (CFloat.fin 19)).take (10 : Int).toNat, v.TruncatesToInt) ∧
    (10 : Int).toNat ≤ (List.replicate 10 (-2147483647 : Int)).length ∧
    (∀ x ∈ (List.replicate 10 (-2147483647 : Int)).take (10 : Int).toNat,
      INT_MIN < x ∧ x ≤ INT_MAX) ∧
    ChronoSense.calculateModSum referencePlatform (List.replicate 10 (CFloat.fin 19)) 10
      = some 0 ∧
    ChronoSense.calculateModSumInt (List.replicate 10 (-2147483647 : Int)) 10 = some 0 ∧
    ChronoSense.calculateModSumTotals referencePlatform (List.replicate 10 (CFloat.fin 19)) 10
      0 0 = [9, 18, 27, 36, 45, 54, 63, 72, 81, 90] ∧
    (∀ s ∈ ChronoSense.calculateModSumTotals referencePlatform
        (List.replicate 10 (CFloat.fin 19)) (10 : Int).toNat 0 0,
      INT_MIN ≤ s ∧ s ≤ INT_MAX) :=
  ⟨by decide, by decide, by decide, by decide, by decide, by decide, by decide, by decide,
    (checksum_is_digit referencePlatform (List.replicate 10 (CFloat.fin 19))
      (List.replicate 10 (-2147483647 : Int)) 10 (by decide) (by decide) (by decide)
      (by decide) (by decide)).2.2.1⟩

/-- A TCP-mode instance without credentials, and a WebSocket-mode instance
without a server host whose WiFi link associates. -/
theorem begin_missing_parameters_witness :
    (ChronoSense.new .CS_WIFI_TCP).wifiSSID = "" ∧
    (∃ out, ChronoSense.begin referencePlatform wifiUp (ChronoSense.new .CS_WIFI_TCP)
        "Arduino-Sensor" = some out ∧
      out.value = false ∧
      out.state = { ChronoSense.new .CS_WIFI_TCP with deviceName := "Arduino-Sensor" } ∧
      out.state.connected = (ChronoSense.new .CS_WIFI_TCP).connected ∧
      (∀ e ∈ out.trace, ∃ t, e = Event.debugPrintln t) ∧
      Event.onConnect ∉ out.trace) ∧
    webSocketNoHost.serverHost = "" ∧ webSocketNoHost.connected = false ∧
    (∃ out, ChronoSense.begin referencePlatform wifiUp webSocketNoHost "Arduino-Sensor"
        = some out ∧
      out.value = false ∧ out.state.connected = false ∧ Event.onConnect ∉ out.trace) ∧
    ChronoSense.begin referencePlatform wifiUp webSocketNoHost "Arduino-Sensor"
      = some {
          value := false
          state := webSocketNoHost
          trace := [.wifiBegin "lab" "secret", .wifiSetHostname "Arduino-Sensor"] } :=
  ⟨by decide,
    (begin_missing_parameters referencePlatform wifiUp (ChronoSense.new .CS_WIFI_TCP)
      "Arduino-Sensor").1 (Or.inr rfl) (by decide),
    by decide, by decide,
    (begin_missing_parameters referencePlatform wifiUp webSocketNoHost "Arduino-Sensor").2
      (by decide) (by decide) (by decide),
    by decide⟩

/-! ## Determinism of the encoder -/

/-- C20. `formatCSVData` is a function of the platform, the checksum flag,
the values and the count alone: two instances that agree on `checksumEnabled`
give the same text for the same values and count, whatever the sensor-type
argument, the mode, the connection flag, `lastTransmission` and every other
member are.  The embedded function takes no clock and returns only the text,
as the source reads no clock and assigns no member. -/
theorem formatCSVData_deterministic (p : Platform) (cs1 cs2 : ChronoSense)
    (sensorType1 sensorType2 : String) (values : List CFloat) (count : Int)
    (h : cs1.checksumEnabled = cs2.checksumEnabled) :
    ChronoSense.formatCSVData p cs1 sensorType1 values count
      = ChronoSense.formatCSVData p cs2 sensorType2 values count := by
  unfold ChronoSense.formatCSVData
  rw [h]

/-- Two instances that differ in mode, connection flag and send time, called
with different sensor types. -/
theorem formatCSVData_deterministic_witness :
    connectedSerial.checksumEnabled = tcpConfigured.checksumEnabled ∧
    connectedSerial ≠ tcpConfigured ∧
    ChronoSense.formatCSVData referencePlatform connectedSerial "Temperature"
        [f12_7, fNeg3_2, f100] 3
      = ChronoSense.formatCSVData referencePlatform tcpConfigured "CO2"
        [f12_7, fNeg3_2, f100] 3 ∧
    ChronoSense.formatCSVData referencePlatform connectedSerial "Temperature"
        [f12_7, fNeg3_2, f100] 3 = some "12.7,-3.2,100.0,5" :=
  ⟨by decide, by decide,
    formatCSVData_deterministic referencePlatform connectedSerial tcpConfigured "Temperature"
      "CO2" [f12_7, fNeg3_2, f100] 3 (by decide),
    by decide⟩

/-! ## The encoding of three values without checksum -/

/-- With the checksum flag clear, the text for the values `1.0`, `-2.55f`, `3.0`
is the three renderings `String(v, 1)` joined by commas, on every platform;
which digits a rendering has is decided by the Arduino core. -/
theorem formatCSVData_three_values (p : Platform) (cs : ChronoSense) (sensorType : String)
    (h : cs.checksumEnabled = false) :
    ChronoSense.formatCSVData p cs sensorType [.fin 1, fNeg2_55, .fin 3] 3
      = some (p.floatString1 (.fin 1) ++ "," ++ p.floatString1 fNeg2_55 ++ ","
          ++ p.floatString1 (.fin 3)) := by
  unfold ChronoSense.formatCSVData
  rw [h]
  rfl

/-! ## When a send succeeds and what it does -/

/-- C21. With at least `count` values present, `sendSensorData` returns, and
it returns `true` exactly when the instance is connected, the count is in
`[1, 10]` and either the validation level is None or `validateSensorData`
accepts the reading.  On success it calls `transmitString` exactly once, with
the text `formatCSVData` returns, sets `lastTransmission` to the clock value
read and calls `onDataSent` (when registered) exactly once with that same
text and no other callback.  The single-value overload is the same call with
one value and count `1`. -/
theorem sendSensorData_success_iff (p : Platform) (cs : ChronoSense)
    (millisEnvelope millisSend : Nat) (sensorType : String) (values : List CFloat)
    (count : Int) (hlen : count.toNat ≤ values.length) :
    (∃ out, ChronoSense.sendSensorData p cs millisEnvelope millisSend sensorType values count
        = some out ∧
      (out.value = true ↔
        cs.connected = true ∧ 1 ≤ count ∧ count ≤ 10 ∧
          (cs.validation = .VALIDATE_NONE ∨
            ChronoSense.validateSensorData values count sensorType = some true)) ∧
      (out.value = true →
        ∃ csv, ChronoSense.formatCSVData p cs sensorType values count = some csv ∧
          out.trace = (if cs.validation = .VALIDATE_NONE then [] else [.validateSensorData])
            ++ [.formatCSVData, .transmitString csv]
            ++ ChronoSense.transmitString p cs millisEnvelope csv
            ++ (if cs.onDataSentCallback then [.onDataSent csv] else []) ∧
          payloads out.trace = [csv] ∧
          callbacks out.trace = (if cs.onDataSentCallback then [.onDataSent csv] else []) ∧
          out.state = { cs with lastTransmission := millisSend } ∧
          out.state.lastTransmission = millisSend)) ∧
    (∀ value : CFloat,
      ChronoSense.sendSensorDataValue p cs millisEnvelope millisSend sensorType value
        = ChronoSense.sendSensorData p cs millisEnvelope millisSend sensorType [value] 1) := by
  refine ⟨?_, fun _ => rfl⟩
  by_cases hguard : cs.connected = false ∨ count < 1 ∨ 10 < count
  · refine ⟨⟨false, cs, []⟩, sendSensorData_of_failed_guard p cs millisEnvelope millisSend
      sensorType values count hguard, ?_, ?_⟩
    · constructor
      · intro h
        exact absurd h (by simp)
      · rintro ⟨hc, h1, h10, _⟩
        rcases hguard with h | h | h
        · rw [hc] at h
          exact absurd h (by simp)
        · omega
        · omega
    · intro h
      exact absurd h (by simp)
  · have hconn : cs.connected = true := by
      cases hc : cs.connected
      · exact absurd (Or.inl hc) hguard
      · rfl
    have h1 : 1 ≤ count := by
      by_contra h
      exact hguard (Or.inr (Or.inl (by omega)))
    have h10 : count ≤ 10 := by
      by_contra h
      exact hguard (Or.inr (Or.inr (by omega)))
    obtain ⟨csv, hcsv⟩ := formatCSVData_isSome p cs sensorType values count h1 hlen
    obtain ⟨ok, hok⟩ := validateSensorData_isSome values count sensorType h1 hlen
    have hsent : ∀ pre : List Event, payloads pre = [] → callbacks pre = [] →
        payloads (pre ++ [.formatCSVData, .transmitString csv]
            ++ ChronoSense.transmitString p cs millisEnvelope csv
            ++ (if cs.onDataSentCallback then [.onDataSent csv] else [])) = [csv] ∧
        callbacks (pre ++ [.formatCSVData, .transmitString csv]
            ++ ChronoSense.transmitString p cs millisEnvelope csv
            ++ (if cs.onDataSentCallback then [.onDataSent csv] else []))
          = (if cs.onDataSentCallback then [.onDataSent csv] else []) := by
      intro pre hp hc
      constructor
      · simp only [payloads_append, hp, payloads_transmitString]
        cases cs.onDataSentCallback <;> rfl
      · simp only [callbacks_append, hc, callbacks_transmitString]
        cases cs.onDataSentCallback <;> rfl
    rw [sendSensorData_of_guard p cs millisEnvelope millisSend sensorType values count hconn
      h1 h10]
    by_cases hnone : cs.validation = .VALIDATE_NONE
    · have hlt : ¬ cs.validation.toNat ≥ ValidationLevel.VALIDATE_BASIC.toNat := by
        rw [hnone]
        decide
      rw [if_neg hlt]
      unfold ChronoSense.sendSensorDataSend
      rw [hcsv]
      refine ⟨_, rfl, ?_, ?_⟩
      · exact ⟨fun _ => ⟨hconn, h1, h10, Or.inl hnone⟩, fun _ => rfl⟩
      · intro _
        refine ⟨csv, rfl, ?_, (hsent [] rfl rfl).1, (hsent [] rfl rfl).2, rfl, rfl⟩
        rw [if_pos hnone]
    · have hge : cs.validation.toNat ≥ ValidationLevel.VALIDATE_BASIC.toNat := by
        cases hv : cs.validation
        · exact absurd hv hnone
        all_goals decide
      rw [if_pos hge, hok]
      cases ok
      · refine ⟨_, rfl, ?_, ?_⟩
        · constructor
          · intro h
            exact absurd h (by simp)
          · rintro ⟨_, _, _, h | h⟩
            · exact absurd h hnone
            · exact absurd h (by simp)
        · intro h
          exact absurd h (by simp)
      · unfold ChronoSense.sendSensorDataSend
        rw [hcsv]
        refine ⟨_, rfl, ?_, ?_⟩
        · exact ⟨fun _ => ⟨hconn, h1, h10, Or.inr rfl⟩, fun _ => rfl⟩
        · intro _
          refine ⟨csv, rfl, ?_, (hsent [.validateSensorData] rfl rfl).1,
            (hsent [.validateSensorData] rfl rfl).2, rfl, rfl⟩
          rw [if_neg hnone]

/-- Sending the single value `12.7f` over the connected USB serial instance. -/
theorem sendSensorData_success_iff_witness :
    (1 : Int).toNat ≤ [f12_7].length ∧
    ∃ out, ChronoSense.sendSensorData referencePlatform connectedSerial 5 7 "Temperature"
        [f12_7] 1 = some out ∧
      out.value = true ∧ payloads out.trace = ["12.7,2"] ∧
      out.state.lastTransmission = 7 := by
  obtain ⟨out, hsend, hiff, hdo⟩ :=
    (sendSensorData_success_iff referencePlatform connectedSerial 5 7 "Temperature"
      [f12_7] 1 (by decide)).1
  have hval : out.value = true :=
    hiff.mpr ⟨by decide, by decide, by decide, Or.inr (by decide)⟩
  obtain ⟨csv, hcsv, _, hpay, _, _, hlast⟩ := hdo hval
  have e : ChronoSense.formatCSVData referencePlatform connectedSerial "Temperature"
      [f12_7] 1 = some "12.7,2" := by decide
  rw [e] at hcsv
  rw [← Option.some.inj hcsv] at hpay
  exact ⟨by decide, out, hsend, hval, hpay, hlast⟩

/-! ## The checksum does not see order or sign -/

/-- Adding two digits to a wrapped total in either order gives the same total. -/
theorem wrapInt_add_comm (z a b : Int) :
    wrapInt (wrapInt (z + a) + b) = wrapInt (wrapInt (z + b) + a) := by
  unfold wrapInt
  omega

/-- The loop of `calculateModSum(float[], int)` folds the wrapped addition of
the digits over the next `n` values. -/
theorem calculateModSumLoop_eq_foldl (p : Platform) (values : List CFloat) :
    ∀ (n i : Nat) (sum : Int), i + n ≤ values.length →
      ChronoSense.calculateModSumLoop p values n i sum
        = some (((values.drop i).take n).foldl
            (fun s v => wrapInt (s + (intAbs (v.toInt p)).tmod 10)) sum) := by
  intro n
  induction n with
  | zero => intro i sum _; simp [ChronoSense.calculateModSumLoop]
  | succ n ih =>
    intro i sum hlen
    have hi : i < values.length := by omega
    rw [ChronoSense.calculateModSumLoop, List.getElem?_eq_getElem hi]
    simp only
    rw [ih (i + 1) _ (by omega), List.drop_eq_getElem_cons hi, List.take_succ_cons,
      List.foldl_cons]

/-- The loop of `calculateModSum(int[], int)` as a fold. -/
theorem calculateModSumIntLoop_eq_foldl (values : List Int) :
    ∀ (n i : Nat) (sum : Int), i + n ≤ values.length →
      ChronoSense.calculateModSumIntLoop values n i sum
        = some (((values.drop i).take n).foldl
            (fun s x => wrapInt (s + (intAbs x).tmod 10)) sum) := by
  intro n
  induction n with
  | zero => intro i sum _; simp [ChronoSense.calculateModSumIntLoop]
  | succ n ih =>
    intro i sum hlen
    have hi : i < values.length := by omega
    rw [ChronoSense.calculateModSumIntLoop, List.getElem?_eq_getElem hi]
    simp only
    rw [ih (i + 1) _ (by omega), List.drop_eq_getElem_cons hi, List.take_succ_cons,
      List.foldl_cons]

/-- The checksum of a whole float sequence as a fold. -/
theorem calculateModSum_eq_foldl (p : Platform) (values : List CFloat) :
    ChronoSense.calculateModSum p values values.length
      = some ((values.foldl (fun s v => wrapInt (s + (intAbs (v.toInt p)).tmod 10)) 0).tmod
          10) := by
  unfold ChronoSense.calculateModSum
  rw [Int.toNat_ofNat, calculateModSumLoop_eq_foldl p values values.length 0 0 (by omega)]
  simp

/-- The checksum of a whole `int` sequence as a fold. -/
theorem calculateModSumInt_eq_foldl (values : List Int) :
    ChronoSense.calculateModSumInt values values.length
      = some ((values.foldl (fun s x => wrapInt (s + (intAbs x).tmod 10)) 0).tmod 10) := by
  unfold ChronoSense.calculateModSumInt
  rw [Int.toNat_ofNat, calculateModSumIntLoop_eq_foldl values values.length 0 0 (by omega)]
  simp

theorem calculateChecksumInt_eq_calculateModSumInt (values : List Int) (count : Int) :
    ChronoSenseUtils.calculateChecksumInt values count
      = ChronoSense.calculateModSumInt values count := by
  unfold ChronoSenseUtils.calculateChecksumInt ChronoSense.calculateModSumInt
  rw [calculateChecksumIntLoop_eq_calculateModSumIntLoop]

/-- Truncation of a negated rational is the negated truncation. -/
theorem truncQ_neg (q : ℚ) : truncQ (-q) = -truncQ q := by
  unfold truncQ
  rw [Rat.neg_num, Rat.neg_den, Int.neg_tdiv]

/-- The `abs` macro gives the same result on an `int` and on its negation
when both are `int`s. -/
theorem intAbs_neg (x : Int) (h1 : INT_MIN ≤ x) (h2 : x ≤ INT_MAX) (h4 : -x ≤ INT_MAX) :
    intAbs (-x) = intAbs x := by
  unfold INT_MIN at h1
  unfold INT_MAX at h2 h4
  rw [intAbs_of_gt_min x (by unfold INT_MIN; omega) (by unfold INT_MAX; omega),
    intAbs_of_gt_min (-x) (by unfold INT_MIN; omega) (by unfold INT_MAX; omega), abs_neg]

/-- A float and its negation, both truncating into `int` range, cast to
`int`s with the same `abs`. -/
theorem intAbs_toInt_neg (p : Platform) (v : CFloat) (h : v.InIntRange)
    (hneg : v.neg.InIntRange) : intAbs (v.neg.toInt p) = intAbs (v.toInt p) := by
  cases v with
  | nan => exact absurd h (by simp [CFloat.InIntRange])
  | inf b => exact absurd h (by simp [CFloat.InIntRange])
  | negZero =>
    simp [CFloat.neg, CFloat.toInt, truncQ, INT_MIN, INT_MAX]
  | fin q =>
    by_cases hq : q = 0
    · subst hq
      simp [CFloat.neg, CFloat.toInt, truncQ, INT_MIN, INT_MAX]
    · simp only [CFloat.neg, if_neg hq, CFloat.InIntRange] at hneg
      simp only [CFloat.InIntRange] at h
      simp only [CFloat.neg, if_neg hq, CFloat.toInt]
      rw [if_pos hneg, if_pos h, truncQ_neg]
      rw [truncQ_neg] at hneg
      exact intAbs_neg _ h.1 h.2 hneg.2

theorem negateWhere_length : ∀ (flags : List Bool) (values : List CFloat),
    (negateWhere flags values).length = values.length := by
  intro flags
  induction flags with
  | nil => intro values; cases values <;> rfl
  | cons b bs ih =>
    intro values
    cases values with
    | nil => rfl
    | cons v vs => simp [negateWhere, ih vs]

theorem negateIntsWhere_length : ∀ (flags : List Bool) (values : List Int),
    (negateIntsWhere flags values).length = values.length := by
  intro flags
  induction flags with
  | nil => intro values; cases values <;> rfl
  | cons b bs ih =>
    intro values
    cases values with
    | nil => rfl
    | cons v vs => simp [negateIntsWhere, ih vs]

/-- Folding the digits over a sequence with some values negated gives the
same total when all values, before and after, truncate into `int` range. -/
theorem foldl_negateWhere (p : Platform) : ∀ (flags : List Bool) (values : List CFloat)
    (s : Int), (∀ v ∈ values, v.InIntRange) → (∀ v ∈ negateWhere flags values, v.InIntRange) →
    (negateWhere flags values).foldl (fun s v => wrapInt (s + (intAbs (v.toInt p)).tmod 10)) s
      = values.foldl (fun s v => wrapInt (s + (intAbs (v.toInt p)).tmod 10)) s := by
  intro flags
  induction flags with
  | nil => intro values s _ _; cases values <;> rfl
  | cons b bs ih =>
    intro values s h hneg
    cases values with
    | nil => rfl
    | cons v vs =>
      simp only [negateWhere, List.mem_cons, forall_eq_or_imp] at hneg
      simp only [List.mem_cons, forall_eq_or_imp] at h
      simp only [negateWhere, List.foldl_cons]
      have hhead : intAbs ((if b = true then v.neg else v).toInt p) = intAbs (v.toInt p) := by
        cases b
        · rfl
        · exact intAbs_toInt_neg p v h.1 hneg.1
      rw [hhead]
      exact ih vs _ h.2 hneg.2

/-- The same for the `int` overloads. -/
theorem foldl_negateIntsWhere : ∀ (flags : List Bool) (values : List Int) (s : Int),
    (∀ x ∈ values, INT_MIN ≤ x ∧ x ≤ INT_MAX) →
    (∀ x ∈ negateIntsWhere flags values, INT_MIN ≤ x ∧ x ≤ INT_MAX) →
    (negateIntsWhere flags values).foldl (fun s x => wrapInt (s + (intAbs x).tmod 10)) s
      = values.foldl (fun s x => wrapInt (s + (intAbs x).tmod 10)) s := by
  intro flags
  induction flags with
  | nil => intro values s _ _; cases values <;> rfl
  | cons b bs ih =>
    intro values s h hneg
    cases values with
    | nil => rfl
    | cons v vs =>
      simp only [negateIntsWhere, List.mem_cons, forall_eq_or_imp] at hneg
      simp only [List.mem_cons, forall_eq_or_imp] at h
      simp only [negateIntsWhere, List.foldl_cons]
      have hhead : intAbs (if b = true then -v else v) = intAbs v := by
        cases b
        · rfl
        · exact intAbs_neg v h.1.1 h.1.2 hneg.1.2
      rw [hhead]
      exact ih vs _ h.2 hneg.2

set_option maxRecDepth 100000 in
/-- Two-digit padding of a number below one hundred. -/
theorem zeroPad_two : ∀ n < 100,
    zeroPad 2 n = String.mk [Nat.digitChar (n / 10), Nat.digitChar (n % 10)] := by
  decide

set_option maxRecDepth 1000000 in
set_option maxHeartbeats 4000000 in
/-- Three-digit padding of a number below one thousand. -/
theorem zeroPad_three : ∀ n < 1000,
    zeroPad 3 n
      = String.mk [Nat.digitChar (n / 100), Nat.digitChar (n / 10 % 10),
          Nat.digitChar (n % 10)] := by
  decide

/-- C23. For every clock value `ms` (every 32-bit value in particular),
`formatTimestamp` produces the twelve characters `HH:MM:SS.mmm`, two decimal
digits for each of `HH`, `MM`, `SS` and three for `mmm`, which with the
terminator fill the 13-byte buffer exactly, where `HH < 24`, `MM < 60`,
`SS < 60`, `mmm < 1000` and
`HH * 3600000 + MM * 60000 + SS * 1000 + mmm = ms mod 86400000`. -/
theorem formatTimestamp_form (ms : Nat) :
    ∃ HH MM SS mmm : Nat,
      HH < 24 ∧ MM < 60 ∧ SS < 60 ∧ mmm < 1000 ∧
      HH * 3600000 + MM * 60000 + SS * 1000 + mmm = ms % 86400000 ∧
      ChronoSenseUtils.formatTimestamp ms
        = String.mk [Nat.digitChar (HH / 10), Nat.digitChar (HH % 10), ':',
            Nat.digitChar (MM / 10), Nat.digitChar (MM % 10), ':',
            Nat.digitChar (SS / 10), Nat.digitChar (SS % 10), '.',
            Nat.digitChar (mmm / 100), Nat.digitChar (mmm / 10 % 10),
            Nat.digitChar (mmm % 10)] ∧
      (ChronoSenseUtils.formatTimestamp ms).length = 12 ∧
      (ChronoSenseUtils.formatTimestamp ms).length + 1 ≤ 13 := by
  have hH : ms / 1000 / 60 / 60 % 24 < 24 := Nat.mod_lt _ (by norm_num)
  have hM : ms / 1000 / 60 % 60 < 60 := Nat.mod_lt _ (by norm_num)
  have hS : ms / 1000 % 60 < 60 := Nat.mod_lt _ (by norm_num)
  have hm : ms % 1000 < 1000 := Nat.mod_lt _ (by norm_num)
  have htext : ChronoSenseUtils.formatTimestamp ms
      = String.mk [Nat.digitChar (ms / 1000 / 60 / 60 % 24 / 10),
          Nat.digitChar (ms / 1000 / 60 / 60 % 24 % 10), ':',
          Nat.digitChar (ms / 1000 / 60 % 60 / 10), Nat.digitChar (ms / 1000 / 60 % 60 % 10),
          ':',
          Nat.digitChar (ms / 1000 % 60 / 10), Nat.digitChar (ms / 1000 % 60 % 10), '.',
          Nat.digitChar (ms % 1000 / 100), Nat.digitChar (ms % 1000 / 10 % 10),
          Nat.digitChar (ms % 1000 % 10)] := by
    unfold ChronoSenseUtils.formatTimestamp
    simp only
    rw [zeroPad_two _ (by omega), zeroPad_two _ (by omega), zeroPad_two _ (by omega),
      zeroPad_three _ hm]
    rfl
  refine ⟨ms / 1000 / 60 / 60 % 24, ms / 1000 / 60 % 60, ms / 1000 % 60, ms % 1000,
    hH, hM, hS, hm, by omega, htext, ?_, ?_⟩
  · rw [htext]
    rfl
  · rw [htext]
    exact Nat.le_refl 13

/-- The largest 32-bit clock value, 49 days and 17:02:47.295 after the start. -/
theorem formatTimestamp_form_witness :
    ChronoSenseUtils.formatTimestamp 4294967295 = "17:02:47.295" ∧
    17 * 3600000 + 2 * 60000 + 47 * 1000 + 295 = 4294967295 % 86400000 ∧
    ∃ HH MM SS mmm : Nat,
      HH < 24 ∧ MM < 60 ∧ SS < 60 ∧ mmm < 1000 ∧
      HH * 3600000 + MM * 60000 + SS * 1000 + mmm = 4294967295 % 86400000 ∧
      ChronoSenseUtils.formatTimestamp 4294967295
        = String.mk [Nat.digitChar (HH / 10), Nat.digitChar (HH % 10), ':',
            Nat.digitChar (MM / 10), Nat.digitChar (MM % 10), ':',
            Nat.digitChar (SS / 10), Nat.digitChar (SS % 10), '.',
            Nat.digitChar (mmm / 100), Nat.digitChar (mmm / 10 % 10),
            Nat.digitChar (mmm % 10)] ∧
      (ChronoSenseUtils.formatTimestamp 4294967295).length = 12 ∧
      (ChronoSenseUtils.formatTimestamp 4294967295).length + 1 ≤ 13 :=
  ⟨by decide, by decide, formatTimestamp_form 4294967295⟩

/-! ## The checksum field of a reading at the lower end of `int` -/

/-- C3 (as stated) fails. The finite reading `-2147483648.0` passes validation
as "Accelerometer", and with the checksum enabled `formatCSVData` returns, and
`sendSensorData` transmits, the text `-2147483648.0,-8`: the field after the
last comma is `-8`, which is not a decimal digit. -/
theorem formatCSVData_checksum_field_counterexample :
    connectedSerial.checksumEnabled = true ∧
    ChronoSense.validateSensorData [.fin (-2147483648)] 1 "Accelerometer" = some true ∧
    ChronoSense.calculateModSum referencePlatform [.fin (-2147483648)] 1 = some (-8) ∧
    ChronoSense.formatCSVData referencePlatform connectedSerial "Accelerometer"
        [.fin (-2147483648)] 1 = some "-2147483648.0,-8" ∧
    (ChronoSense.sendSensorData referencePlatform connectedSerial 5 7 "Accelerometer"
        [.fin (-2147483648)] 1).map (fun out => (out.value, payloads out.trace))
      = some (true, ["-2147483648.0,-8"]) := by
  decide

/-! ## The text of the three-value example -/

/-- C19 (as amended). With the checksum flag clear and `String(v, 1)` computed
as the Arduino core does, `formatCSVData` on the values `1.0`, `-2.55`, `3.0`
returns exactly the text `1.0,-2.5,3.0`, for every sensor type and every other
member of the instance: the `float` nearest to `-2.55` is `-2.5499999523...`,
whose rendering with one fractional digit is `-2.5`. -/
theorem formatCSVData_example_text (p : Platform) (cs : ChronoSense) (sensorType : String)
    (hflag : cs.checksumEnabled = false) (hrender : p.floatString1 = oneDecimal) :
    ChronoSense.formatCSVData p cs sensorType [.fin 1, fNeg2_55, .fin 3] 3
      = some "1.0,-2.5,3.0" := by
  rw [formatCSVData_three_values p cs sensorType hflag, hrender]
  decide

/-- The example on the reference platform, with the checksum flag clear. -/
theorem formatCSVData_example_text_witness :
    connectedSerialNoChecksum.checksumEnabled = false ∧
    referencePlatform.floatString1 = oneDecimal ∧
    ChronoSense.formatCSVData referencePlatform connectedSerialNoChecksum "Temperature"
        [.fin 1, fNeg2_55, .fin 3] 3 = some "1.0,-2.5,3.0" :=
  ⟨by decide, rfl,
    formatCSVData_example_text referencePlatform connectedSerialNoChecksum "Temperature"
      (by decide) rfl⟩

/-- C19 (as stated) fails. With the checksum flag clear the text for the values
`1.0`, `-2.55`, `3.0` is `1.0,-2.5,3.0`, not `1.0,-2.6,3.0`. -/
theorem formatCSVData_example_text_counterexample :
    connectedSerialNoChecksum.checksumEnabled = false ∧
    oneDecimal fNeg2_55 = "-2.5" ∧
    ChronoSense.formatCSVData referencePlatform connectedSerialNoChecksum "Temperature"
        [.fin 1, fNeg2_55, .fin 3] 3 = some "1.0,-2.5,3.0" ∧
    ¬ (ChronoSense.formatCSVData referencePlatform connectedSerialNoChecksum "Temperature"
        [.fin 1, fNeg2_55, .fin 3] 3 = some "1.0,-2.6,3.0") := by
  decide
